import Mathlib

/-!
Verification of the IACorfo backend's plan interpreter and tool-execution
engine (question_analizer / question_analizer2 endpoints).

The Python source is shallowly embedded as follows:

* MongoDB documents become `MDoc` records: the source-specific center-name
  field ("NAME" / "Centro") is `centerVal` (an `Option String`, `none`
  modelling a missing or null field), the date field ("FECHA" / "Fecha") is
  `fecha`, the "Unidad" field is `unidad`, and all remaining (metric)
  fields live in an association list `fields` keyed by the underlying DB
  field name.  Dates are modelled at day granularity as natural numbers:
  every stored date is the midnight of its day, so the source's
  end-of-day adjustment (`.replace(hour=23, minute=59, second=59)`) makes
  the upper bound inclusive of the end day, the `%Y-%m-%d` round trip
  through `strftime`/`date_parser.parse` is the identity, and the
  `$dateToString`-based same-day join in the correlation pipeline is plain
  equality of day numbers.
* Aggregation pipelines become list programs: `$match` is `List.filter`,
  `$sort` is `List.insertionSort` with the corresponding comparator,
  `$limit` is `List.take` (with Mongo's rejection of a negative limit
  modelled as the error the surrounding `try/except` converts it to),
  `$project` builds the record shapes below, and `$group` with
  `$first`/`$sum` is modelled by grouping combinators (`dedupFirst`,
  `latestEntry`) — a compound sort `(key asc, date desc)` followed by
  `$group/$first` selects, per group, the latest-dated document (the
  earliest stored one on date ties, matching a stable sort).
* Numeric field values are rationals (`ℚ`); the Python/Mongo bankers
  rounding (`round(x, 2)`, `$round`) is `roundHalfEven`/`round2`.
* Python dict / JSON values exchanged by the interpreter become `JVal`;
  dicts are insertion-ordered association lists, and `ctxInsert` models
  dict assignment (update in place, append if new).
* Python string operations are re-implemented structurally over
  `String.data` so that all definitions evaluate inside the kernel; the
  regular expressions of the two routers are translated to the
  prefix/suffix/split tests they perform (the newline edge cases of
  Python's `.`/`$` are not modelled — no placeholder contains a newline).
* `try/except` blocks become `Except String`; a caught exception is the
  `.error` case, converted to the same error payload the handler stores.
-/

namespace IACorfo

/-! ## Generic infrastructure -/

/-- Lookup in an insertion-ordered association list (Python `dict.get`):
the first entry with the key. -/
def alookup {α : Type} : List (String × α) → String → Option α
  | [], _ => none
  | p :: ps, k => if p.1 = k then some p.2 else alookup ps k

/-- Membership test for a key (Python `k in d`). -/
def hasKey {α : Type} : List (String × α) → String → Bool
  | [], _ => false
  | p :: ps, k => if p.1 = k then true else hasKey ps k

/-- Auxiliary accumulator recursion for `dedupFirst`: drop elements
already seen. -/
def dedupFirstAux {α : Type} [DecidableEq α] (seen : List α) : List α → List α
  | [] => []
  | a :: as =>
    if a ∈ seen then dedupFirstAux seen as
    else a :: dedupFirstAux (a :: seen) as

/-- Remove duplicates keeping the first occurrence of each element, in
order — the semantics of key insertion into a Python dict and of the
first-wins grouping used to model Mongo `$group` keys. -/
def dedupFirst {α : Type} [DecidableEq α] (l : List α) : List α :=
  dedupFirstAux [] l

/-- Bankers rounding to an integer (Python `round`, Mongo `$round`):
round half to even. -/
def roundHalfEven (q : ℚ) : ℤ :=
  let f := ⌊q⌋
  if q - f < 1/2 then f
  else if 1/2 < q - f then f + 1
  else if Even f then f else f + 1

/-- `round(x, 2)` / `$round [x, 2]`: bankers rounding to two decimals. -/
def round2 (q : ℚ) : ℚ := (roundHalfEven (q * 100) : ℚ) / 100

/-! String operations, implemented structurally over `String.data` so that
they reduce in the kernel. -/

/-- `str.startswith(p)` / regex anchored prefix. -/
def sStartsWith (s p : String) : Bool := p.data.isPrefixOf s.data

/-- `str.endswith(p)` / regex anchored suffix. -/
def sEndsWith (s p : String) : Bool := p.data.reverse.isPrefixOf s.data.reverse

/-- Drop the first `n` characters (`s[n:]`). -/
def sDrop (s : String) (n : Nat) : String := ⟨s.data.drop n⟩

/-- Drop the last `n` characters (`s[:-n]`). -/
def sDropRight (s : String) (n : Nat) : String := ⟨s.data.take (s.data.length - n)⟩

/-- Split a character list on a separator character. -/
def splitOnCh (c : Char) : List Char → List (List Char)
  | [] => [[]]
  | a :: as =>
    let r := splitOnCh c as
    if a = c then [] :: r
    else
      match r with
      | [] => [[a]]
      | g :: gs => (a :: g) :: gs

/-- `str.split(c)` for a single-character separator (always non-empty). -/
def sSplitOn (s : String) (c : Char) : List String :=
  (splitOnCh c s.data).map (fun l => ⟨l⟩)

/-- Replace every occurrence of a character (`str.replace("_", " ")`). -/
def sReplaceCh (s : String) (a b : Char) : String :=
  ⟨s.data.map (fun ch => if ch = a then b else ch)⟩

/-- `str.title()`: capitalise the letter starting each alphabetic run,
lowercase the rest (ASCII behaviour, which covers the metric and key
names involved). -/
def titleCase (s : String) : String :=
  ⟨go false s.data⟩
where
  go : Bool → List Char → List Char
    | _, [] => []
    | prevAlpha, c :: cs =>
      (if c.isAlpha then (if prevAlpha then c.toLower else c.toUpper) else c)
        :: go c.isAlpha cs

/-- Lexicographic strict order on character lists (Python `<` on `str`). -/
def charsLt : List Char → List Char → Bool
  | [], [] => false
  | [], _ :: _ => true
  | _ :: _, [] => false
  | a :: as, b :: bs => if a = b then charsLt as bs else a.val < b.val

/-- Non-strict lexicographic order on strings, used for the output sorts
(`sorted(...)` over strings and string tuples). -/
def strLeB (a b : String) : Bool := !(charsLt b.data a.data)

/-! ## JSON-ish values for the interpreter layer -/

/-- Values passed around by the routers: plan parameters and tool results
(Python scalars, lists and dicts).  Dicts are insertion-ordered
association lists. -/
inductive JVal where
  | str (s : String)
  | int (n : Int)
  | rat (q : ℚ)
  | bool (b : Bool)
  | null
  | list (xs : List JVal)
  | obj (fs : List (String × JVal))
  deriving Repr

/-- The execution context (`collected_data`): an insertion-ordered dict
from `store_result_as` keys to step outcomes. -/
abbrev Ctx := List (String × JVal)

/-- Python dict assignment `d[k] = v`: update the value in place if the
key is present, append otherwise. -/
def ctxInsert (ctx : Ctx) (k : String) (v : JVal) : Ctx :=
  if hasKey ctx k then
    ctx.map (fun p => if p.1 = k then (k, v) else p)
  else ctx ++ [(k, v)]

/-- `d.get(k)` on the execution context. -/
def ctxLookup (ctx : Ctx) (k : String) : Option JVal := alookup ctx k

/-- `field in result and result[field]` access: dict field lookup on a
result value.  Tool results are always dicts; on a non-dict value the
lookup fails (the step then errors, as the Python membership test or
subscript would). -/
def fieldLookup (v : JVal) (f : String) : Option JVal :=
  match v with
  | .obj fs => alookup fs f
  | _ => none

/-- Python truthiness for `JVal` (`if x:` / `or` chains). -/
def jTruthy : JVal → Bool
  | .str s => s ≠ ""
  | .int n => n ≠ 0
  | .rat q => q ≠ 0
  | .bool b => b
  | .null => false
  | .list xs => !xs.isEmpty
  | .obj fs => !fs.isEmpty

/-- Python `x == 0` on an optional dict entry (`result.get("count") == 0`):
`None == 0` is false, `0 == 0` and `False == 0` are true. -/
def jIsZero : Option JVal → Bool
  | some (.int n) => decide (n = 0)
  | some (.rat q) => decide (q = 0)
  | some (.bool b) => b = false
  | _ => false

/-! ## Relational data model (MySQL side) -/

/-- A row of the `master_centers` table: the canonical site with its
per-source alias document (modelled already JSON-decoded). -/
structure MasterCenter where
  id : Int
  canonical_name : String
  aliases : List (String × String)
  deriving Repr, DecidableEq

/-- `ToolExecutor._get_master_center_by_id`: first row with the given id. -/
def getMasterCenterById : List MasterCenter → Int → Option MasterCenter
  | [], _ => none
  | c :: cs, center_id =>
    if c.id = center_id then some c else getMasterCenterById cs center_id

/-- `ALIAS_KEYS_MAP` from `data_tools.py`. -/
def aliasKeyFor (source : String) : Option String :=
  if source = "clima" then some "climaV2_db_code"
  else if source = "alimentacion" then some "resumenAlimentacion_db_name"
  else none

/-- `ToolExecutor._get_alias_value`: extract the source-specific alias of
a center; a missing key, an unknown source, or a falsy value all yield
`none` (the Python returns `None` after logging). -/
def getAliasValue (c : MasterCenter) (source : String) : Option String :=
  match aliasKeyFor source with
  | none => none
  | some k =>
    match alookup c.aliases k with
    | none => none
    | some v => if v = "" then none else some v

/-! ## Mongo data model -/

/-- A document of the `climaV2` / `alimentacionV2` collections.
`centerVal` is the value of the source's center-name field ("NAME" /
"Centro"), `none` modelling a missing or null field; `fecha` is the
day-granularity date; `unidad` is the "Unidad" field (only meaningful for
alimentacion documents); all metric fields live in `fields` keyed by the
underlying DB field name (an absent key models a missing field). -/
structure MDoc where
  centerVal : Option String
  fecha : Nat
  unidad : String
  fields : List (String × ℚ)
  deriving Repr, DecidableEq

/-- The two databases visible to the tools. -/
structure DB where
  centers : List MasterCenter
  climaDocs : List MDoc
  aliDocs : List MDoc
  deriving Repr

/-- Per-source configuration, as in `FULL_METRIC_MAP`: the date field
name, the center-name field name, and the logical-metric → DB-field
table (field names stored with their `$` prefix, as in the source). -/
structure SourceConfig where
  fecha : String
  center_name_field : String
  metrics : List (String × String)
  deriving Repr

/-- `FULL_METRIC_MAP` from `data_tools.py` (identical in both endpoint
versions). -/
def FULL_METRIC_MAP : List (String × SourceConfig) :=
  [("clima",
    { fecha := "FECHA"
      center_name_field := "NAME"
      metrics :=
        [("temperatura_minima", "$TEMP_MIN_C"),
         ("temperatura_maxima", "$TEMP_MAX_C"),
         ("temperatura_tarde", "$TEMP_TARDE"),
         ("presion", "$PRESION_HPA"),
         ("humedad", "$HUMEDAD_%"),
         ("viento", "$VIENTO_VEL_MS"),
         ("precipitacion", "$PRECIPITACION_TOTAL_MM")] }),
   ("alimentacion",
    { fecha := "Fecha"
      center_name_field := "Centro"
      metrics :=
        [("alimento_total", "$Alimentos"),
         ("sfr", "$SFR en período"),
         ("fcr_biologico", "$FCR Biológico Acum"),
         ("crecimiento_bruto", "$Crecimiento bruto"),
         ("sgr", "$SGR en período"),
         ("mortalidad", "$Mortalidad"),
         ("biomasa_mortalidad", "$Biomasa Mortalidad Acum"),
         ("temperatura_marina", "$Temperatura Promedio"),
         ("peso_promedio", "$Desarrollo del Peso Promedio"),
         ("biomasa_total_actual", "$Saldo Final Biomasa"),
         ("peces_ingresados", "$Número Ingreso")] })]

/-- `FULL_METRIC_MAP[source]`, when the source is known. -/
def configOf (source : String) : Option SourceConfig := alookup FULL_METRIC_MAP source

/-- `self.collections[source]`: the documents of a source's collection. -/
def docsOf (db : DB) (source : String) : List MDoc :=
  if source = "clima" then db.climaDocs else db.aliDocs

/-- Strip the `$` prefix of a DB field reference (`.replace('$','')`). -/
def stripDollar (s : String) : String := ⟨s.data.filter (fun c => c ≠ '$')⟩

/-- `ToolExecutor._build_mongo_filter`: resolve the alias used to filter
the source's collection for a center; a missing center or alias yields
`none`.  The returned document filter `{field: alias}` is represented by
the alias value (the field is fixed by the source's config). -/
def buildMongoFilter (db : DB) (center_id : Int) (source : String) : Option String :=
  match getMasterCenterById db.centers center_id with
  | none => none
  | some mc => getAliasValue mc source

/-! ## Pipeline building blocks -/

/-- A document produced by the time-series `$project` stage: the
projected date plus one entry per requested-and-present metric, keyed by
the logical metric name. -/
structure TSItem where
  fecha : Nat
  vals : List (String × ℚ)
  deriving Repr, DecidableEq

/-- Ascending date order on projected items (`{"$sort": {"fecha": 1}}`). -/
def ascFecha (a b : TSItem) : Prop := a.fecha ≤ b.fecha

instance : DecidableRel ascFecha := fun a b => Nat.decLe a.fecha b.fecha

instance : IsTotal TSItem ascFecha := ⟨fun a b => Nat.le_total a.fecha b.fecha⟩

instance : IsTrans TSItem ascFecha := ⟨fun _ _ _ => Nat.le_trans⟩

/-- Descending date order on raw documents (`{"$sort": {date_field: -1}}`). -/
def descFecha (a b : MDoc) : Prop := b.fecha ≤ a.fecha

instance : DecidableRel descFecha := fun a b => Nat.decLe b.fecha a.fecha

/-- The `$limit` stage as appended under `if apply_limit:`: a falsy limit
(`None` or `0`) appends no stage; a negative limit is rejected by MongoDB
when the pipeline runs, which the surrounding `try/except` converts into
the given error message; otherwise the first `n` documents are kept. -/
def limitStage {α : Type} (apply_limit : Option Int) (errMsg : String)
    (l : List α) : Except String (List α) :=
  match apply_limit with
  | none => .ok l
  | some n =>
    if n = 0 then .ok l
    else if n < 0 then .error errMsg
    else .ok (l.take n.toNat)

/-- The metric part of the time-series `$project` stage: for each
requested metric that exists in the source's catalog (first occurrence
per name, as in a Python dict), the document's value under the underlying
field, omitted when the document lacks the field. -/
def projectVals (cfg : SourceConfig) (metrics : List String) (d : MDoc) :
    List (String × ℚ) :=
  (dedupFirst metrics).filterMap (fun m =>
    match alookup cfg.metrics m with
    | some fld => (alookup d.fields (stripDollar fld)).map (fun v => (m, v))
    | none => none)

/-- The full time-series `$project` stage: projected date plus metrics. -/
def projectItem (cfg : SourceConfig) (metrics : List String) (d : MDoc) : TSItem :=
  { fecha := d.fecha, vals := projectVals cfg metrics d }

/-- The `$match` date condition: present only when both bounds were
supplied (the source tests `if start_date and end_date:`). -/
def dateOk (start_date end_date : Option Nat) (d : MDoc) : Bool :=
  match start_date, end_date with
  | some s, some e => s ≤ d.fecha && d.fecha ≤ e
  | _, _ => true

/-! ## ToolExecutor.get_timeseries_data (question_analizer version) -/

/-- Result shape of a time-series fetch: an error dict, the zero-match
dict `{"count": 0, "data": [], "summary": ...}` (which carries no
`default_limit_used` key), or the success dict
`{"count": len(data), "data": data, "default_limit_used": flag}`. -/
inductive TSOut where
  | err (msg : String)
  | noData
  | ok (data : List TSItem) (default_limit_used : Bool)
  deriving Repr, DecidableEq

/-- `ToolExecutor.get_timeseries_data` (question_analizer/data_tools.py):
fetch a time series of the requested metrics for one center and one
source, applying a default preview limit of 20 when neither a date bound
nor an explicit limit was supplied.  Optional dates model the Python
`None` defaults (the callers pass dates already day-valued). -/
def get_timeseries_data (db : DB) (center_id : Int) (source : String)
    (metrics : List String) (start_date end_date : Option Nat)
    (limit : Option Int) : TSOut :=
  let default_limit_applied := limit.isNone && start_date.isNone && end_date.isNone
  let apply_limit := if default_limit_applied then some (20 : Int) else limit
  match configOf source with
  | none => .err ("Fuente '" ++ source ++ "' no reconocida.")
  | some cfg =>
    match buildMongoFilter db center_id source with
    | none => .err "No se pudo crear un filtro para el centro."
    | some av =>
      if metrics.all (fun m => (alookup cfg.metrics m).isNone) then
        .err "Ninguna de las métricas es válida para la fuente."
      else
        let matched := (docsOf db source).filter
          (fun d => decide (d.centerVal = some av) && dateOk start_date end_date d)
        let sortedDesc := List.insertionSort descFecha matched
        match limitStage apply_limit "Ocurrió un error al consultar la base de datos." sortedDesc with
        | .error m => .err m
        | .ok limited =>
          let result := List.insertionSort ascFecha (limited.map (projectItem cfg metrics))
          if result.isEmpty then .noData
          else .ok result default_limit_applied

/-! ## ToolExecutor.get_data_range_for_source (identical in both versions) -/

/-- Result of the available-date-range lookup: an error dict,
`{"has_data": False}` when no document matches, or
`{"has_data": True, "first_record": ..., "last_record": ...}` (the
formatted dates are parsed back by the caller; at day granularity the
round trip is the identity, so the bounds are kept as day numbers). -/
inductive RangeOut where
  | err (msg : String)
  | noData
  | range (first_record last_record : Nat)
  deriving Repr, DecidableEq

/-- `ToolExecutor.get_data_range_for_source`: the `$min`/`$max` of the
date field over the documents matching the center's alias. -/
def get_data_range_for_source (db : DB) (center_id : Int) (source : String) :
    RangeOut :=
  match configOf source with
  | none => .err ("Fuente '" ++ source ++ "' no reconocida.")
  | some _ =>
    match buildMongoFilter db center_id source with
    | none => .err "No se pudo crear un filtro para el centro."
    | some av =>
      match (docsOf db source).filter (fun d => decide (d.centerVal = some av)) with
      | [] => .noData
      | d :: ds =>
        .range ((ds.map MDoc.fecha).foldl Nat.min d.fecha)
               ((ds.map MDoc.fecha).foldl Nat.max d.fecha)

/-! ## ToolExecutor.correlate_timeseries_data -/

/-- The `$lookup` + `$unwind(preserveNullAndEmptyArrays)` +
`$replaceRoot($mergeObjects)` join of the correlation pipelines: for each
primary item, the secondary documents with the secondary alias and the
same day, projected to the valid secondary metrics; an empty match list
keeps the primary item unchanged, otherwise one merged row per match
(later fields override on collision, as `$mergeObjects` does). -/
def correlationJoin (sdocs : List MDoc) (scfg : SourceConfig) (sAlias : String)
    (secondary_metrics : List String) (items : List TSItem) : List TSItem :=
  items.flatMap (fun it =>
    let mts := (sdocs.filter (fun d => decide (d.centerVal = some sAlias) && decide (d.fecha = it.fecha))).map
      (fun d => projectVals scfg secondary_metrics d)
    match mts with
    | [] => [it]
    | _ =>
      mts.map (fun sv =>
        { fecha := it.fecha
          vals := it.vals.map (fun p =>
              match alookup sv p.1 with
              | some v => (p.1, v)
              | none => p)
            ++ sv.filter (fun q => !(hasKey it.vals q.1)) }))

/-- The final inclusion `$project` of the correlation pipelines: keep the
date plus any field named by the requested metric lists. -/
def correlationFinalProject (primary_metrics secondary_metrics : List String)
    (it : TSItem) : TSItem :=
  { fecha := it.fecha
    vals := it.vals.filter (fun p =>
      primary_metrics.contains p.1 || secondary_metrics.contains p.1) }

/-- Result shape of the question_analizer correlation tool:
`{"count": len(data), "data": data}` or an error dict. -/
inductive CorrOut1 where
  | err (msg : String)
  | ok (data : List TSItem)
  deriving Repr, DecidableEq

/-- `ToolExecutor.correlate_timeseries_data`
(question_analizer/data_tools.py): join two sources by day for one
center.  No automatic date-range resolution is performed; the `$limit`
stage is always appended with the `limit` parameter (Python default
`100`), and MongoDB rejects a non-positive `$limit` value, which the
`try/except` converts to the catch-all error. -/
def correlate_timeseries_data1 (db : DB) (center_id : Int)
    (primary_source : String) (primary_metrics : List String)
    (secondary_source : String) (secondary_metrics : List String)
    (start_date end_date : Option Nat) (limit : Int) : CorrOut1 :=
  match configOf primary_source, configOf secondary_source with
  | some pcfg, some scfg =>
    match getMasterCenterById db.centers center_id with
    | none => .err "Centro no encontrado."
    | some mc =>
      match buildMongoFilter db center_id primary_source, getAliasValue mc secondary_source with
      | some pAlias, some sAlias =>
        let matched := (docsOf db primary_source).filter
          (fun d => decide (d.centerVal = some pAlias) && dateOk start_date end_date d)
        let sortedDesc := List.insertionSort descFecha matched
        if limit ≤ 0 then .err "No se pudieron correlacionar los datos."
        else
          let items := (sortedDesc.take limit.toNat).map (projectItem pcfg primary_metrics)
          let joined := correlationJoin (docsOf db secondary_source) scfg sAlias
            secondary_metrics items
          .ok (List.insertionSort ascFecha
            (joined.map (correlationFinalProject primary_metrics secondary_metrics)))
      | _, _ => .err "No se pudieron obtener los aliases necesarios para la correlación."
  | _, _ => .err "Una de las fuentes de datos no es válida."

/-- Result shape of the question_analizer2 correlation tool:
`{"count", "data", "default_limit_used", "date_range_used"}` or an error
dict. -/
inductive CorrOut2 where
  | err (msg : String)
  | ok (data : List TSItem) (default_limit_used : Bool) (date_range_used : String)
  deriving Repr, DecidableEq

/-- Day formatting (`strftime('%Y-%m-%d')` / f-string interpolation),
abstracted at day granularity to the decimal numeral (injective). -/
def fmtDay (d : Nat) : String := toString d

/-- `ToolExecutor.correlate_timeseries_data`
(question_analizer2/data_tools.py): when neither date bound is supplied,
resolve the effective range as the intersection of the two sources'
available min/max ranges, failing with an explicit error when the ranges
do not overlap or when either source has no data; then run the same
day-join pipeline over the resolved range, with the default preview
limit applied only when no dates were resolved at all. -/
def correlate_timeseries_data2 (db : DB) (center_id : Int)
    (primary_source : String) (primary_metrics : List String)
    (secondary_source : String) (secondary_metrics : List String)
    (start_date end_date : Option Nat) (limit : Option Int) : CorrOut2 :=
  let resolved : Except String (Option Nat × Option Nat) :=
    if start_date.isNone && end_date.isNone then
      match get_data_range_for_source db center_id primary_source,
            get_data_range_for_source db center_id secondary_source with
      | .range f1 l1, .range f2 l2 =>
        let overlap_start := Nat.max f1 f2
        let overlap_end := Nat.min l1 l2
        if overlap_start ≤ overlap_end then .ok (some overlap_start, some overlap_end)
        else .error "Se encontraron datos para ambas fuentes, pero no en el mismo período de tiempo. No se puede realizar la correlación."
      | _, _ => .error "No se encontraron datos suficientes en una o ambas fuentes para realizar la correlación."
    else .ok (start_date, end_date)
  match resolved with
  | .error m => .err m
  | .ok (final_start, final_end) =>
    let default_limit_applied := limit.isNone && final_start.isNone && final_end.isNone
    let apply_limit := if default_limit_applied then some (20 : Int) else limit
    match configOf primary_source, configOf secondary_source with
    | some pcfg, some scfg =>
      match getMasterCenterById db.centers center_id with
      | none => .err "Centro no encontrado."
      | some mc =>
        match getAliasValue mc primary_source, getAliasValue mc secondary_source with
        | some pAlias, some sAlias =>
          let matched := (docsOf db primary_source).filter
            (fun d => decide (d.centerVal = some pAlias) && dateOk final_start final_end d)
          let sortedDesc := List.insertionSort descFecha matched
          match limitStage apply_limit "No se pudieron correlacionar los datos." sortedDesc with
          | .error m => .err m
          | .ok limited =>
            let items := limited.map (projectItem pcfg primary_metrics)
            let joined := correlationJoin (docsOf db secondary_source) scfg sAlias
              secondary_metrics items
            let data := List.insertionSort ascFecha
              (joined.map (correlationFinalProject primary_metrics secondary_metrics))
            let drs := match final_start with
              | some a => fmtDay a ++ " a " ++ (match final_end with
                  | some b => fmtDay b
                  | none => "None")
              | none => "Últimos registros"
            .ok data default_limit_applied drs
        | _, _ => .err "No se pudieron obtener los aliases para la correlación."
    | _, _ => .err "Una de las fuentes de datos no es válida."

/-! ## ToolExecutor.get_mortality_rate (identical in both versions) -/

/-- First maximal-date document of a list: models the compound sort
`(centro asc, unidad asc, date desc)` followed by `$group`/`$first`
restricted to one `(centro, unidad)` group — within a group the
comparator reduces to descending date, so `$first` picks the
latest-dated document, the earliest stored one on date ties (the sort is
stable). -/
def latestEntry : List MDoc → Option MDoc
  | [] => none
  | d :: ds =>
    match latestEntry ds with
    | none => some d
    | some b => if d.fecha < b.fecha then some b else some d

/-- A row of the mortality KPI output:
`{"centro", "total_peces_ingresados", "total_peces_muertos",
"porcentaje_mortalidad_total"}`. -/
structure MortRow where
  centro : String
  total_peces_ingresados : ℚ
  total_peces_muertos : ℚ
  porcentaje_mortalidad_total : ℚ
  deriving Repr, DecidableEq

/-- Result shape of the mortality KPI: `{"count": len(data), "data": data}`
(the zero-match early return has the same shape) or an error dict. -/
inductive MortOut where
  | err (msg : String)
  | ok (rows : List MortRow)
  deriving Repr, DecidableEq

/-- The key of the first `$group` stage: `(centro, unidad)`.  Matched
documents always have a present center value, so the default is never
hit. -/
def mortKey (d : MDoc) : String × String := (d.centerVal.getD "", d.unidad)

/-- The per-unit `$project` stage of the mortality pipeline: deaths
`(Mortalidad / 100) * Número Ingreso` and the initial stock, per selected
document.  Mongo raises when `$divide`/`$multiply` meets a missing
field, which the `try/except` converts to the catch-all error. -/
def mortProjectRows : List (String × MDoc) → Except String (List (String × ℚ × ℚ))
  | [] => .ok []
  | p :: ps =>
    match alookup p.2.fields "Mortalidad", alookup p.2.fields "Número Ingreso" with
    | some m, some s => (mortProjectRows ps).map (fun rs => (p.1, m / 100 * s, s) :: rs)
    | _, _ => .error "Error al calcular la tasa de mortalidad."

/-- The `$match` stage of `get_mortality_rate`, after the center filter
has been resolved to an optional list of alias values: center field
present and non-null, optionally restricted to the aliases, optionally
date-bounded above. -/
def mortMatched (docs : List MDoc) (center_filter : Option (List String))
    (end_date : Option Nat) : List MDoc :=
  docs.filter (fun d =>
    d.centerVal.isSome
    && (match center_filter with
        | some als => (match d.centerVal with
            | some c => decide (c ∈ als)
            | none => false)
        | none => true)
    && (match end_date with
        | some e => d.fecha ≤ e
        | none => true))

/-- The `$sort (centro, unidad, date desc)` + `$group/$first` stages of
`get_mortality_rate`: one entry per `(centro, unidad)` group of the
matched documents (groups in first-appearance order), carrying the
centro and the group's latest-dated document. -/
def mortSelected (docs : List MDoc) (center_filter : Option (List String))
    (end_date : Option Nat) : List (String × MDoc) :=
  (dedupFirst ((mortMatched docs center_filter end_date).map mortKey)).filterMap (fun k =>
    (latestEntry ((mortMatched docs center_filter end_date).filter
      (fun d => mortKey d = k))).map (fun d => (k.1, d)))

/-- The aggregation pipeline of `get_mortality_rate`, continued from the
selection stage: per-unit death projection, per-centro sums, percentage
with zero guard, sort by centro, and the Python post-loop that rounds
each percentage to two decimals. -/
def mortalityPipeline (docs : List MDoc) (center_filter : Option (List String))
    (end_date : Option Nat) : MortOut :=
  match mortProjectRows (mortSelected docs center_filter end_date) with
  | .error m => .err m
  | .ok rows =>
    let centros := dedupFirst (rows.map (fun r => r.1))
    let final := centros.map (fun c =>
      let rs := rows.filter (fun r => r.1 = c)
      let totalM := (rs.map (fun r => r.2.1)).sum
      let totalS := (rs.map (fun r => r.2.2)).sum
      MortRow.mk c totalS (roundHalfEven totalM : ℚ)
        (if 0 < totalS then totalM / totalS * 100 else 0))
    let rounded := final.map (fun r =>
      { r with porcentaje_mortalidad_total := round2 r.porcentaje_mortalidad_total })
    .ok (List.insertionSort (fun a b => strLeB a.centro b.centro = true) rounded)

/-- `ToolExecutor.get_mortality_rate` (question_analizer2/data_tools.py,
lines 644-734; the question_analizer version, lines 591-681, is
identical): the weighted mortality KPI.  A truthy `center_ids` list is
resolved to alias values (an empty resolution is an error); `start_date`
is accepted but never read — only `end_date` contributes a date filter. -/
def get_mortality_rate (db : DB) (center_ids : Option (List Int))
    (start_date end_date : Option Nat) : MortOut :=
  match center_ids with
  | some ids =>
    if ids.isEmpty then mortalityPipeline db.aliDocs none end_date
    else
      let alias_values := ids.filterMap (fun cid =>
        (getMasterCenterById db.centers cid).bind
          (fun c => getAliasValue c "alimentacion"))
      if alias_values.isEmpty then
        .err "Ninguno de los IDs de centro proporcionados tiene un alias válido."
      else mortalityPipeline db.aliDocs (some alias_values) end_date
  | none => mortalityPipeline db.aliDocs none end_date

/-! ## Placeholder resolution (chat_router step 1) -/

/-- The question_analizer router's placeholder recogniser, regex
`^\\$\\\x7b(.*)\\\x7d$|^\\\x7b\\\x7b(.*)\\\x7d\\\x7d$`: a string of the shape
`"$\x7bcontent\x7d"` or `"\x7b\x7bcontent\x7d\x7d"`; the matched group content is
returned. -/
def parsePH1 (s : String) : Option String :=
  if sStartsWith s "$\x7b" && sEndsWith s "\x7d" then
    some (sDropRight (sDrop s 2) 1)
  else if sStartsWith s "\x7b\x7b" && sEndsWith s "\x7d\x7d" then
    some (sDropRight (sDrop s 2) 2)
  else none

/-- The question_analizer2 router's placeholder recogniser, regex
`^\\$\\\x7b(.*)\\.(.*)\\\x7d$`: only the `"$\x7bkey.field\x7d"` form, with the
greedy first group splitting at the last dot. -/
def parsePH2 (s : String) : Option (String × String) :=
  if sStartsWith s "$\x7b" && sEndsWith s "\x7d" then
    match (sSplitOn (sDropRight (sDrop s 2) 1) '.').reverse with
    | f :: rest@(_ :: _) => some ((String.intercalate "." rest.reverse : String), f)
    | _ => none
  else none

/-- Resolution of one parameter value by the question_analizer router:
only scalar strings are inspected; a recognised placeholder is split on
dots, the first two parts are the prior `result_key` and the field
(fewer than two parts raise an `IndexError`, an empty content raises a
`ValueError`), and the value found in the execution context replaces the
parameter; an unresolvable reference raises a `ValueError`.  Lists and
non-string values pass through untouched. -/
def resolveParamV1 (ctx : Ctx) (v : JVal) : Except String JVal :=
  match v with
  | .str s =>
    match parsePH1 s with
    | none => .ok v
    | some content =>
      if content = "" then
        .error "No se pudo extraer contenido del placeholder"
      else
        match sSplitOn content '.' with
        | k :: f :: _ =>
          match ctxLookup ctx k with
          | some r =>
            match fieldLookup r f with
            | some val => .ok val
            | none => .error "No se pudo resolver el placeholder"
          | none => .error "No se pudo resolver el placeholder"
        | _ => .error "IndexError"
  | _ => .ok v

/-- Scalar-string resolution by the question_analizer2 router. -/
def resolveScalarV2 (ctx : Ctx) (s : String) : Except String JVal :=
  match parsePH2 s with
  | none => .ok (.str s)
  | some (k, f) =>
    match ctxLookup ctx k with
    | some r =>
      match fieldLookup r f with
      | some val => .ok val
      | none => .error "No se pudo resolver el placeholder"
    | none => .error "No se pudo resolver el placeholder"

/-- Resolution of one parameter value by the question_analizer2 router:
scalar strings are resolved; list values are resolved element-wise
(string elements only), any unresolvable element failing the whole
parameter; other values pass through untouched. -/
def resolveParamV2 (ctx : Ctx) (v : JVal) : Except String JVal :=
  match v with
  | .str s => resolveScalarV2 ctx s
  | .list xs => do
    let ys ← xs.mapM (fun item =>
      match item with
      | .str s => resolveScalarV2 ctx s
      | other => .ok other)
    .ok (.list ys)
  | other => .ok other

/-- Resolve every parameter of a step (the routers iterate the parameter
dict, replacing values in place; the first failure aborts the step). -/
def resolveParams (resolve : Ctx → JVal → Except String JVal) (ctx : Ctx)
    (ps : List (String × JVal)) : Except String (List (String × JVal)) :=
  ps.mapM (fun p => (resolve ctx p.2).map (fun v => (p.1, v)))

/-! ## Plan steps and dispatch -/

/-- One plan step: `\x7b"tool", "parameters", "store_result_as"\x7d`.  A
missing tool name or result key is modelled by the empty string (both are
falsy in the `not all([tool_name, result_key])` validity test of the
question_analizer2 router). -/
structure Step where
  tool : String
  parameters : List (String × JVal)
  store_result_as : String
  deriving Repr

/-- A tool invocation: keyword parameters to a result value, or a raised
exception (`Except.error`).  A tool that returns an error dict does so in
the `.ok` branch — the routers inspect the payload, not the exception
path. -/
abbrev ToolFn := List (String × JVal) → Except String JVal

/-- The `hasattr`/`getattr` attribute table of a `ToolExecutor` instance:
`none` models a missing attribute (an `AttributeError` on access). -/
abbrev Registry := String → Option ToolFn

/-! ## question_analizer2 router (chat_router.py, analyze_question_endpoint) -/

/-- `parameters.get('source') or parameters.get('primary_source', 'clima')`. -/
def fallbackSource (ps : List (String × JVal)) : JVal :=
  match alookup ps "source" with
  | some v => if jTruthy v then v else (alookup ps "primary_source").getD (.str "clima")
  | none => (alookup ps "primary_source").getD (.str "clima")

/-- The body of the question_analizer2 router's `try` block for one step:
resolve placeholders, dispatch by attribute lookup (`direct_answer` is
special-cased when no attribute exists; any other unknown name raises an
`AttributeError`), store the result, and on a zero-count data-tool result
with a `center_id` parameter store the available-range lookup under
`result_key + "_available_range"`.  `rangeFn` is
`executor.get_data_range_for_source`, abstracted over the database. -/
def stepAttempt2 (tools : Registry) (rangeFn : JVal → JVal → JVal) (ctx : Ctx)
    (st : Step) : Except String Ctx :=
  match resolveParams resolveParamV2 ctx st.parameters with
  | .error e => .error e
  | .ok ps =>
    match tools st.tool with
    | some f =>
      match f ps with
      | .error e => .error e
      | .ok r =>
        let ctx1 := ctxInsert ctx st.store_result_as r
        let isDataTool := decide (st.tool = "get_timeseries_data")
          || decide (st.tool = "correlate_timeseries_data")
          || decide (st.tool = "get_monthly_aggregation")
        if isDataTool && jIsZero (fieldLookup r "count") && hasKey ps "center_id" then
          let src := fallbackSource ps
          if jTruthy src then
            match alookup ps "center_id" with
            | some cid =>
              .ok (ctxInsert ctx1 (st.store_result_as ++ "_available_range") (rangeFn cid src))
            | none => .ok ctx1
          else .ok ctx1
        else .ok ctx1
    | none =>
      if st.tool = "direct_answer" then
        .ok (ctxInsert ctx st.store_result_as
          (.obj [("answer", (alookup ps "response").getD (.str "No pude procesar tu solicitud."))]))
      else .error "AttributeError: herramienta no encontrada"

/-- The error payload stored by the question_analizer2 router's `except`
handler. -/
def errPayload2 (tool : String) : JVal :=
  .obj [("error", .str ("Falló la ejecución de la herramienta '" ++ tool ++ "'."))]

/-- One step of the question_analizer2 plan loop: invalid steps
(missing tool or result key) are skipped; a caught exception stores the
error payload under the step's own key. -/
def execStep2 (tools : Registry) (rangeFn : JVal → JVal → JVal) (ctx : Ctx)
    (st : Step) : Ctx :=
  if st.tool = "" ∨ st.store_result_as = "" then ctx
  else
    match stepAttempt2 tools rangeFn ctx st with
    | .ok c => c
    | .error _ => ctxInsert ctx st.store_result_as (errPayload2 st.tool)

/-- The question_analizer2 plan loop: strictly sequential execution over
the shared execution context. -/
def runPlan2 (tools : Registry) (rangeFn : JVal → JVal → JVal) :
    Ctx → List Step → Ctx
  | ctx, [] => ctx
  | ctx, st :: rest => runPlan2 tools rangeFn (execStep2 tools rangeFn ctx st) rest

/-! ## question_analizer router (chat_router.py, analyze_question_endpoint) -/

/-- The body of the question_analizer router's `try` block for one step:
resolve placeholders (scalar strings only), dispatch by attribute lookup
(an unknown tool stores an error dict without raising), store the result,
and on a zero-count `get_timeseries_data` result call
`executor.get_data_range_summary(...)` — an attribute looked up in the
same table; if it is absent the access raises an `AttributeError`. -/
def stepAttempt1 (tools : Registry) (ctx : Ctx) (st : Step) :
    Except String Ctx :=
  match resolveParams resolveParamV1 ctx st.parameters with
  | .error e => .error e
  | .ok ps =>
    match tools st.tool with
    | some f =>
      match f ps with
      | .error e => .error e
      | .ok r =>
        let ctx1 := ctxInsert ctx st.store_result_as r
        if decide (st.tool = "get_timeseries_data") && jIsZero (fieldLookup r "count") then
          match tools "get_data_range_summary" with
          | some g =>
            match g [("source", (alookup ps "source").getD .null),
                     ("center_id", (alookup ps "center_id").getD .null)] with
            | .error e => .error e
            | .ok ri => .ok (ctxInsert ctx1 (st.store_result_as ++ "_range_info") ri)
          | none => .error "AttributeError: get_data_range_summary"
        else .ok ctx1
    | none =>
      .ok (ctxInsert ctx st.store_result_as
        (.obj [("error", .str ("Herramienta '" ++ st.tool ++ "' no encontrada."))]))

/-- The error payload stored by the question_analizer router's `except`
handler. -/
def errPayload1 (tool : String) : JVal :=
  .obj [("error", .str ("Ocurrió un error inesperado al ejecutar '" ++ tool ++ "'."))]

/-- One step of the question_analizer plan loop. -/
def execStep1 (tools : Registry) (ctx : Ctx) (st : Step) : Ctx :=
  match stepAttempt1 tools ctx st with
  | .ok c => c
  | .error _ => ctxInsert ctx st.store_result_as (errPayload1 st.tool)

/-- The question_analizer plan loop. -/
def runPlan1 (tools : Registry) : Ctx → List Step → Ctx
  | ctx, [] => ctx
  | ctx, st :: rest => runPlan1 tools (execStep1 tools ctx st) rest

/-! ## JVal encodings of tool results, and the question_analizer registry -/

/-- Encode a projected time-series item as the dict the tool returns. -/
def tsItemToJ (it : TSItem) : JVal :=
  .obj (("fecha", .int (it.fecha : Int)) :: it.vals.map (fun p => (p.1, .rat p.2)))

/-- Encode a `TSOut` as the dict returned by `get_timeseries_data`. -/
def tsOutToJ : TSOut → JVal
  | .err m => .obj [("error", .str m)]
  | .noData => .obj [("count", .int 0), ("data", .list []),
      ("summary", .str "No se encontraron datos.")]
  | .ok data flag => .obj [("count", .int (data.length : Int)),
      ("data", .list (data.map tsItemToJ)),
      ("default_limit_used", .bool flag)]

/-- Encode a `RangeOut` as the dict returned by
`get_data_range_for_source`. -/
def rangeOutToJ : RangeOut → JVal
  | .err m => .obj [("error", .str m)]
  | .noData => .obj [("has_data", .bool false)]
  | .range f l => .obj [("has_data", .bool true),
      ("first_record", .str (fmtDay f)), ("last_record", .str (fmtDay l))]

/-- Keyword-argument adapter for `get_timeseries_data(**parameters)`:
binds the parameter dict to the Python signature.  An unexpected keyword
or a missing required argument raises a `TypeError` (the `.error` case);
dates are day-valued integers (or null, Python `None`); a date of any
other shape makes `date_parser.parse` fail, which the tool reports as its
date-format error dict; a non-integer limit makes the `$limit` stage
fail, reported as the tool's catch-all error dict. -/
def tsAdapter (db : DB) : ToolFn := fun ps =>
  if !(ps.all (fun p =>
      ["center_id", "source", "metrics", "start_date", "end_date", "limit"].contains p.1)) then
    .error "TypeError: unexpected keyword argument"
  else
    match alookup ps "center_id", alookup ps "source", alookup ps "metrics" with
    | some (.int cid), some (.str src), some (.list ms) =>
      let dateArg : Option JVal → Option (Option Nat)
        | none => some none
        | some .null => some none
        | some (.int n) => some (some n.toNat)
        | some _ => none
      match dateArg (alookup ps "start_date"), dateArg (alookup ps "end_date") with
      | some sd, some ed =>
        let limArg : Option JVal → Option (Option Int)
          | none => some none
          | some .null => some none
          | some (.int n) => some (some n)
          | some _ => none
        match limArg (alookup ps "limit") with
        | some lim =>
          let metrics := ms.filterMap (fun m =>
            match m with
            | .str x => some x
            | _ => none)
          .ok (tsOutToJ (get_timeseries_data db cid src metrics sd ed lim))
        | none => .ok (.obj [("error", .str "Ocurrió un error al consultar la base de datos.")])
      | _, _ => .ok (.obj [("error", .str "Formato de fecha inválido. Use AAAA-MM-DD.")])
    | _, _, _ => .error "TypeError: invalid arguments"

/-- Keyword-argument adapter for `get_data_range_for_source(**·)`. -/
def rangeAdapter (db : DB) : ToolFn := fun ps =>
  if !(ps.all (fun p => ["center_id", "source"].contains p.1)) then
    .error "TypeError: unexpected keyword argument"
  else
    match alookup ps "center_id", alookup ps "source" with
    | some (.int cid), some (.str src) =>
      .ok (rangeOutToJ (get_data_range_for_source db cid src))
    | _, _ => .ok (.obj [("error", .str "No se pudo crear un filtro para el centro.")])

/-- The attribute table of the question_analizer `ToolExecutor`, restricted
to the attributes the theorems exercise.  The class defines the methods
`get_center_id_by_name`, `get_all_centers`, `find_centers_with_data`,
`get_data_range_for_source`, `get_timeseries_data`,
`correlate_timeseries_data`, `get_monthly_aggregation`,
`get_extrema_for_metric`, `get_monthly_summary_for_all_centers`,
`get_annual_aggregation`, `get_last_reading_for_metric` and
`get_mortality_rate` — and, crucially for the fallback path, **no**
`get_data_range_summary`, so that name maps to `none`
(an `AttributeError` on access). -/
def registryV1 (db : DB) : Registry := fun n =>
  if n = "get_timeseries_data" then some (tsAdapter db)
  else if n = "get_data_range_for_source" then some (rangeAdapter db)
  else none

/-! ## merge_timeseries_data_for_chart (question_analizer/chat_router.py) -/

/-- A context entry as seen by the merge routine: a time-series result
dict (its `"data"` list), a `get_center_id_by_name` success dict (its
`"center_id"` and `"center_name"`), or any other dict (an error payload
or an unrelated result, carrying neither a `"data"` nor a
`"center_name"` key). -/
inductive CEntry where
  | ts (data : List TSItem)
  | center (center_id : Int) (center_name : String)
  | otherE
  deriving Repr

/-- The context type consumed by the merge routine. -/
abbrev MCtx := List (String × CEntry)

/-- One flattened data point: `(fecha, origin step key, metric, value)`. -/
structure Point where
  fecha : Nat
  origin_key : String
  metric_name : String
  value : ℚ
  deriving Repr, DecidableEq

/-- The chart object placed under `"merged_chart_data"`. -/
structure Chart where
  type : String
  title : String
  xAxis : List String
  series : List (String × List (Option ℚ))
  deriving Repr, DecidableEq

/-- The keys of the plan's `get_timeseries_data` steps. -/
def tsKeys (plan : List Step) : List String :=
  (plan.filter (fun st => decide (st.tool = "get_timeseries_data"))).map
    (fun st => st.store_result_as)

/-- Step 2 of the merge: flatten every non-empty time-series result into
points, keeping the origin key; a result that is missing, is not a
time-series dict, or has a falsy `"data"` contributes nothing; every
non-date field of an item becomes one point (dates are always present on
projected items — a Mongo datetime is always truthy). -/
def collectPoints (ctx : MCtx) (keys : List String) : List Point :=
  keys.flatMap (fun k =>
    match alookup ctx k with
    | some (.ts data) =>
      data.flatMap (fun it =>
        it.vals.map (fun p =>
          { fecha := it.fecha, origin_key := k, metric_name := p.1, value := p.2 }))
    | _ => [])

/-- The center-name heuristic: the last `_`-separated segment of the
result key is taken as a center alias; if the context holds a
`<alias>_id` entry its `"center_name"` is used (defaulting to the
title-cased alias when that entry has no such key), otherwise the
title-cased alias. -/
def centerDisplay (ctx : MCtx) (k : String) : String :=
  match (sSplitOn k '_').getLast? with
  | none => k
  | some al =>
    match alookup ctx (al ++ "_id") with
    | some (.center _ name) => name
    | some _ => titleCase al
    | none => titleCase al

/-- The display name of a metric: `metric.replace("_", " ").title()`. -/
def metricDisplay (m : String) : String := titleCase (sReplaceCh m '_' ' ')

/-- The legend name of a series. -/
def seriesName (ctx : MCtx) (origin metric : String) : String :=
  metricDisplay metric ++ " (" ++ centerDisplay ctx origin ++ ")"

/-- Timestamp labels (`ts.strftime('%Y-%m-%d %H:%M:%S')`), abstracted at
day granularity to the decimal numeral (injective). -/
def fmtTs (d : Nat) : String := toString d

/-- Lookup in a Python dict built by a comprehension over (key, value)
pairs: the last value per key wins. -/
def dictGet : List (Nat × ℚ) → Nat → Option ℚ
  | [], _ => none
  | p :: ps, t =>
    match dictGet ps t with
    | some v => some v
    | none => if p.1 = t then some p.2 else none

/-- Lexicographic order on `(origin_key, metric_name)` pairs
(`sorted(...)` over Python string 2-tuples). -/
def pairLeB (a b : String × String) : Bool :=
  if a.1 = b.1 then strLeB a.2 b.2 else strLeB a.1 b.1

/-- Step 3 of the merge: the sorted set of the points' timestamps
(`sorted(set(all_timestamps))`). -/
def chartTs (points : List Point) : List Nat :=
  List.insertionSort (fun a b => a ≤ b)
    (dedupFirst (points.map (fun p => p.fecha)))

/-- The distinct `(origin step, metric)` pairs, in sorted order
(`sorted(set(...))` over Python string 2-tuples). -/
def chartPairs (points : List Point) : List (String × String) :=
  List.insertionSort (fun a b => pairLeB a b = true)
    (dedupFirst (points.map (fun p => (p.origin_key, p.metric_name))))

/-- One series' raw `(timestamp, value)` pairs. -/
def seriesPoints (points : List Point) (pr : String × String) : List (Nat × ℚ) :=
  (points.filter (fun p =>
      decide (p.origin_key = pr.1) && decide (p.metric_name = pr.2))).map
    (fun p => (p.fecha, p.value))

/-- Step 4 of the merge for one `(origin, metric)` pair: the legend name
and the values aligned to the shared axis through the per-series
timestamp dict, missing timestamps yielding `null`. -/
def seriesOf (ctx : MCtx) (points : List Point) (pr : String × String) :
    String × List (Option ℚ) :=
  (seriesName ctx pr.1 pr.2,
   (chartTs points).map (fun t => dictGet (seriesPoints points pr) t))

/-- Steps 3-5 of the merge, producing the chart from the flattened
points: the shared x-axis, one series per distinct `(origin, metric)`
pair, and a title listing the distinct metric display names (in series
order) and the sorted distinct center display names. -/
def buildChart (ctx : MCtx) (points : List Point) : Chart :=
  let xAxis := (chartTs points).map fmtTs
  let seriesDefs := chartPairs points
  let series := seriesDefs.map (seriesOf ctx points)
  let metricNames := dedupFirst (seriesDefs.map (fun pr => metricDisplay pr.2))
  let centerNames := List.insertionSort (fun a b => strLeB a b = true)
    (dedupFirst (seriesDefs.map (fun pr => centerDisplay ctx pr.1)))
  { type := "line"
    title := "Comparativa de " ++ String.intercalate ", " metricNames
      ++ " en " ++ String.intercalate ", " centerNames
    xAxis := xAxis
    series := series }

/-- The updated context returned by the merge: the surviving entries
(time-series keys deleted) and, when a chart was produced, the
`"merged_chart_data"` entry held in its own field. -/
structure MergeOut where
  ctx : MCtx
  chart : Option Chart
  deriving Repr

/-- `merge_timeseries_data_for_chart`: collect the plan's time-series
results, flatten them into points, and build one merged chart; with no
time-series step or no points the context is returned unchanged;
otherwise the chart is stored and the raw time-series entries are
removed. -/
def merge_timeseries_data_for_chart (ctx : MCtx) (plan : List Step) : MergeOut :=
  let keys := tsKeys plan
  if keys.isEmpty then { ctx := ctx, chart := none }
  else
    let points := collectPoints ctx keys
    if points.isEmpty then { ctx := ctx, chart := none }
    else
      { ctx := ctx.filter (fun p => !(decide (p.1 ∈ keys)))
        chart := some (buildChart ctx points) }

/-! ## Concrete fixtures used by witnesses and counterexamples -/

/-- A site with aliases for both sources. -/
def centerA : MasterCenter :=
  ⟨1, "Centro Pirquen", [("climaV2_db_code", "PIRQ"), ("resumenAlimentacion_db_name", "Pirquen")]⟩

/-- A second site with aliases for both sources. -/
def centerB : MasterCenter :=
  ⟨2, "Centro Polocuhe", [("climaV2_db_code", "POLO"), ("resumenAlimentacion_db_name", "Polocuhe")]⟩

/-- A clima document for a center alias, one metric field. -/
def cdoc (cv : String) (f : Nat) (v : ℚ) : MDoc := ⟨some cv, f, "", [("TEMP_MIN_C", v)]⟩

/-- An alimentacion document with mortality fields. -/
def adoc (cv u : String) (f : Nat) (m ing : ℚ) : MDoc :=
  ⟨some cv, f, u, [("Mortalidad", m), ("Número Ingreso", ing)]⟩

/-- An alimentacion document with one plain metric field. -/
def sdoc (cv : String) (f : Nat) (v : ℚ) : MDoc := ⟨some cv, f, "U1", [("SFR en período", v)]⟩

/-- Three clima readings for center 1, stored out of order. -/
def dbT : DB := ⟨[centerA, centerB], [cdoc "PIRQ" 3 12, cdoc "PIRQ" 1 10, cdoc "PIRQ" 2 11], []⟩

/-- One clima reading for center 1. -/
def dbT1 : DB := ⟨[centerA, centerB], [cdoc "PIRQ" 1 10], []⟩

/-- No documents at all. -/
def dbE : DB := ⟨[centerA, centerB], [], []⟩

/-- Mortality scenario from the spec: site 1 has 1000 initial stock at 8%
last-recorded mortality, site 2 has 500 at 4%. -/
def dbM : DB := ⟨[centerA, centerB], [], [adoc "Pirquen" "U1" 1 8 1000, adoc "Polocuhe" "U1" 1 4 500]⟩

/-- Non-overlapping correlation scenario: clima data on days 1..3,
alimentacion data on days 100..102. -/
def dbNO : DB := ⟨[centerA, centerB],
  [cdoc "PIRQ" 1 10, cdoc "PIRQ" 2 11, cdoc "PIRQ" 3 12],
  [sdoc "Pirquen" 100 1, sdoc "Pirquen" 101 2, sdoc "Pirquen" 102 3]⟩

/-- Overlapping correlation scenario: clima data on days 1..3,
alimentacion data on days 2..4. -/
def dbOV : DB := ⟨[centerA, centerB],
  [cdoc "PIRQ" 1 10, cdoc "PIRQ" 2 11, cdoc "PIRQ" 3 12],
  [sdoc "Pirquen" 2 1, sdoc "Pirquen" 3 2, sdoc "Pirquen" 4 3]⟩

/-- A context holding one prior result with field `b = 7`, for the
placeholder theorems. -/
def cctx : Ctx := [("a", .obj [("b", .int 7)])]

/-- A plan step fetching clima data for center 1 and storing under
`"t"` — the failing input for the fallback claim. -/
def c4step : Step :=
  ⟨"get_timeseries_data",
   [("center_id", .int 1), ("source", .str "clima"),
    ("metrics", .list [.str "temperatura_minima"])], "t"⟩

/-- The resolved center filter of `get_mortality_rate`: `None` (all
centers) for a falsy `center_ids`, otherwise the alias values of the
requested ids (invalid ids skipped). -/
def mortCenterFilter (db : DB) (center_ids : Option (List Int)) :
    Option (List String) :=
  match center_ids with
  | some ids =>
    if ids.isEmpty then none
    else some (ids.filterMap (fun cid =>
      (getMasterCenterById db.centers cid).bind
        (fun c => getAliasValue c "alimentacion")))
  | none => none

/-! Claim-side definitions for the weighted-mortality KPI (C6), written
from the claim's own words: per site, per unit, the latest-recorded
mortality percentage and initial stock count; absolute deaths
`pct/100 * stock`; sums across units. -/

/-- The units of a site, in first-appearance order. -/
def siteUnits (docs : List MDoc) (c : String) : List String :=
  dedupFirst ((docs.filter (fun d => decide (d.centerVal = some c))).map MDoc.unidad)

/-- The documents of one unit of one site. -/
def unitDocs (docs : List MDoc) (c u : String) : List MDoc :=
  docs.filter (fun d => decide (d.centerVal = some c) && decide (d.unidad = u))

/-- The latest-recorded document of one unit of one site. -/
def unitLatest (docs : List MDoc) (c u : String) : Option MDoc :=
  latestEntry (unitDocs docs c u)

/-- The latest-recorded mortality percentage of one unit. -/
def unitMort (docs : List MDoc) (c u : String) : ℚ :=
  ((unitLatest docs c u).bind (fun d => alookup d.fields "Mortalidad")).getD 0

/-- The latest-recorded initial stock count of one unit. -/
def unitStock (docs : List MDoc) (c u : String) : ℚ :=
  ((unitLatest docs c u).bind (fun d => alookup d.fields "Número Ingreso")).getD 0

/-- Total absolute deaths of a site: per unit, `pct/100 * initial
stock`, summed across units. -/
def siteDeaths (docs : List MDoc) (c : String) : ℚ :=
  ((siteUnits docs c).map (fun u => unitMort docs c u / 100 * unitStock docs c u)).sum

/-- Total initial stock of a site, summed across units. -/
def siteStock (docs : List MDoc) (c : String) : ℚ :=
  ((siteUnits docs c).map (fun u => unitStock docs c u)).sum

/-! Fixtures and the claim-side chart predicate for the merge routine
(C7). -/

/-- A context whose single time-series result repeats a timestamp: two
records on day 1 for metric `"m"`, values 5 then 7. -/
def ctxC7 : MCtx := [("t_pirq", .ts [⟨1, [("m", 5)]⟩, ⟨1, [("m", 7)]⟩])]

/-- One fetch step storing under `"t_pirq"`. -/
def planC7 : List Step := [⟨"get_timeseries_data", [], "t_pirq"⟩]

/-- A context with two distinct origin keys, `"t_pirq"` and `"pirq"`,
whose derived center display names coincide (both title-case to
`"Pirq"`). -/
def ctxC7b : MCtx :=
  [("t_pirq", .ts [⟨1, [("m", 5)]⟩]), ("pirq", .ts [⟨2, [("m", 6)]⟩])]

/-- Two fetch steps storing under `"t_pirq"` and `"pirq"`. -/
def planC7b : List Step :=
  [⟨"get_timeseries_data", [], "t_pirq"⟩, ⟨"get_timeseries_data", [], "pirq"⟩]

/-- The spec's merge scenario: two sites fetched on the same metric with
overlapping timestamps `[1, 2]` and `[2, 3]`. -/
def ctxC7w : MCtx :=
  [("temp_pirquen", .ts [⟨1, [("temperatura", 10)]⟩, ⟨2, [("temperatura", 11)]⟩]),
   ("temp_polocuhe", .ts [⟨2, [("temperatura", 20)]⟩, ⟨3, [("temperatura", 21)]⟩])]

/-- Two fetch steps for the two sites. -/
def planC7w : List Step :=
  [⟨"get_timeseries_data", [], "temp_pirquen"⟩,
   ⟨"get_timeseries_data", [], "temp_polocuhe"⟩]

/-- The amended chart property (C7), written from the claim's words with
the two code-forced corrections: the x-axis is the strictly sorted set
of the flattened points' timestamps; there is a nodup list of the
distinct `(origin, metric)` pairs, one chart series per pair, each
carrying that pair's legend name; each series is aligned 1:1 with the
axis, `null` at exactly the timestamps the pair lacks, and every present
value comes from one of that pair's points at that timestamp (the last
such point — so duplicated timestamps collapse); and two pairs on the
same metric get distinct names whenever their derived center display
names differ (not merely when their origin steps differ). -/
def ChartSpec (ctx : MCtx) (plan : List Step) (ch : Chart) : Prop :=
  ∃ ts : List Nat, ∃ prs : List (String × String),
    ts.Sorted (· < ·)
    ∧ (∀ t, t ∈ ts ↔ ∃ p ∈ collectPoints ctx (tsKeys plan), p.fecha = t)
    ∧ ch.xAxis = ts.map fmtTs
    ∧ prs.Nodup
    ∧ (∀ pr, pr ∈ prs ↔
        ∃ p ∈ collectPoints ctx (tsKeys plan),
          p.origin_key = pr.1 ∧ p.metric_name = pr.2)
    ∧ ch.series.length = prs.length
    ∧ (∀ s ∈ ch.series, s.2.length = ch.xAxis.length)
    ∧ (∀ i pr, prs.get? i = some pr →
        ∃ s, ch.series.get? i = some s
          ∧ s.1 = seriesName ctx pr.1 pr.2
          ∧ ∀ j t, ts.get? j = some t →
              ∃ ov, s.2.get? j = some ov
                ∧ (ov = none ↔
                    ¬ ∃ p ∈ collectPoints ctx (tsKeys plan),
                      p.origin_key = pr.1 ∧ p.metric_name = pr.2 ∧ p.fecha = t)
                ∧ ∀ v, ov = some v →
                    ∃ p ∈ collectPoints ctx (tsKeys plan),
                      p.origin_key = pr.1 ∧ p.metric_name = pr.2
                      ∧ p.fecha = t ∧ p.value = v)
    ∧ (∀ pr1 ∈ prs, ∀ pr2 ∈ prs, pr1.2 = pr2.2 →
        centerDisplay ctx pr1.1 ≠ centerDisplay ctx pr2.1 →
        seriesName ctx pr1.1 pr1.2 ≠ seriesName ctx pr2.1 pr2.2)

/-! # Theorems -/

/-- Claim C10 (confirmed): `get_mortality_rate` accepts a `start_date`
parameter but its result never depends on it — for every database, every
`center_ids` list, every `end_date` and any two `start_date` values
(including none), the two calls produce identical results, because only
an upper-bound (`<= end_date`) date filter is ever built into the
query. -/
theorem C10_start_date_ignored (db : DB) (center_ids : Option (List Int))
    (s1 s2 end_date : Option Nat) :
    get_mortality_rate db center_ids s1 end_date =
      get_mortality_rate db center_ids s2 end_date := rfl

/-- Claim C8 (confirmed): every successful time-series fetch result's
data list is sorted in non-decreasing order by timestamp before being
returned, even though the underlying query sorts descending by date for
most-recent-N limiting. -/
theorem C8_data_sorted_ascending (db : DB) (center_id : Int) (source : String)
    (metrics : List String) (start_date end_date : Option Nat) (limit : Option Int)
    (data : List TSItem) (flag : Bool)
    (h : get_timeseries_data db center_id source metrics start_date end_date limit
        = .ok data flag) :
    List.Sorted ascFecha data := by
  simp only [get_timeseries_data] at h
  split at h
  · exact absurd h (by simp)
  · split at h
    · exact absurd h (by simp)
    · split at h
      · exact absurd h (by simp)
      · split at h
        · exact absurd h (by simp)
        · split at h
          · exact absurd h (by simp)
          · cases h
            exact List.sorted_insertionSort ascFecha _

/-- Claim C8 witness. -/
theorem C8_data_sorted_ascending_witness :
    List.Sorted ascFecha
      [⟨1, [("temperatura_minima", 10)]⟩, ⟨2, [("temperatura_minima", 11)]⟩,
       ⟨3, [("temperatura_minima", 12)]⟩] :=
  C8_data_sorted_ascending dbT 1 "clima" ["temperatura_minima"] none none none _ true rfl

/-- Claim C9 (confirmed): if exactly one of `start_date`/`end_date` is
supplied to `get_timeseries_data`, no date filter is applied at all —
the call behaves identically whichever single bound is supplied and
whatever its value — and the default preview limit is also suppressed,
so absent an explicit limit the call returns every record matching the
site and source, ignoring the supplied bound. -/
theorem C9_single_bound_ignored (db : DB) (center_id : Int) (source : String)
    (metrics : List String) :
    (∀ (s e : Nat) (limit : Option Int),
      get_timeseries_data db center_id source metrics (some s) none limit =
        get_timeseries_data db center_id source metrics none (some e) limit)
  ∧ (∀ (s : Nat) (data : List TSItem) (flag : Bool),
      get_timeseries_data db center_id source metrics (some s) none none = .ok data flag →
      flag = false ∧ ∃ av, buildMongoFilter db center_id source = some av ∧
        data.length =
          ((docsOf db source).filter (fun d => decide (d.centerVal = some av))).length) := by
  constructor
  · intro s e limit
    cases limit <;> rfl
  · intro s data flag h
    simp only [get_timeseries_data] at h
    split at h
    · exact absurd h (by simp)
    · rename_i cfg hcfg
      split at h
      · exact absurd h (by simp)
      · rename_i av hav
        split at h
        · exact absurd h (by simp)
        · split at h
          · exact absurd h (by simp)
          · rename_i limited heq
            split at h
            · exact absurd h (by simp)
            · cases h
              refine ⟨rfl, av, hav, ?_⟩
              simp only [limitStage, Option.isNone_none, Option.isNone_some, Bool.and_false,
                Bool.false_and, Bool.and_true, Bool.true_and, if_false, Bool.false_eq_true,
                reduceIte] at heq
              cases heq
              have hp : ((docsOf db source).filter
                    (fun d => decide (d.centerVal = some av) && dateOk (some s) none d)) =
                  ((docsOf db source).filter (fun d => decide (d.centerVal = some av))) :=
                List.filter_congr (fun d _ => by
                  rw [show dateOk (some s) none d = true from rfl, Bool.and_true])
              simp [List.length_insertionSort, hp]

/-- Claim C9 witness: with only a start bound (value 2) and no limit,
all three stored readings are returned, including the one before day 2,
with no default-limit flag. -/
theorem C9_single_bound_ignored_witness :
    (get_timeseries_data dbT 1 "clima" ["temperatura_minima"] (some 2) none none =
       get_timeseries_data dbT 1 "clima" ["temperatura_minima"] none (some 999) none)
  ∧ (false = false ∧ ∃ av, buildMongoFilter dbT 1 "clima" = some av ∧
      ([(⟨1, [("temperatura_minima", 10)]⟩ : TSItem), ⟨2, [("temperatura_minima", 11)]⟩,
        ⟨3, [("temperatura_minima", 12)]⟩] : List TSItem).length =
        ((docsOf dbT "clima").filter (fun d => decide (d.centerVal = some av))).length) :=
  ⟨(C9_single_bound_ignored dbT 1 "clima" ["temperatura_minima"]).1 2 999 none,
   (C9_single_bound_ignored dbT 1 "clima" ["temperatura_minima"]).2 2 _ false rfl⟩

/-- Inversion for the `$limit` stage: a successful outcome is either the
untouched list (no limit, or the falsy limit 0) or a positive-limit
truncation. -/
theorem limitStage_ok_cases {α : Type} {ap : Option Int} {msg : String}
    {l out : List α} (h : limitStage ap msg l = .ok out) :
    ((ap = none ∨ ap = some 0) ∧ out = l) ∨
      (∃ n, ap = some n ∧ 0 < n ∧ out = l.take n.toNat) := by
  cases ap with
  | none =>
    have h' : (Except.ok l : Except String (List α)) = .ok out := h
    cases h'
    exact Or.inl ⟨Or.inl rfl, rfl⟩
  | some n =>
    have h' : (if n = 0 then (Except.ok l : Except String (List α))
        else if n < 0 then .error msg else .ok (l.take n.toNat)) = .ok out := h
    by_cases h0 : n = 0
    · rw [if_pos h0] at h'
      cases h'
      exact Or.inl ⟨Or.inr (by rw [h0]), rfl⟩
    · rw [if_neg h0] at h'
      by_cases hneg : n < 0
      · rw [if_pos hneg] at h'
        exact absurd h' (by simp)
      · rw [if_neg hneg] at h'
        cases h'
        exact Or.inr ⟨n, rfl, by omega, rfl⟩

/-- Claim C1 counterexample: the claim fails as stated.  (1) With the
explicit limit `0` and no date range, the `if apply_limit:` truthiness
test skips the `$limit` stage entirely, so the call returns more records
than the limit: on a database holding one matching reading the count is
1, not at most 0.  (2) With no dates and no limit but zero matching
records, the result is the `{"count": 0, "data": [], "summary": ...}`
dict, which carries no `default_limit_used` key at all, so that
successful result is not flagged `default_limit_used == true`. -/
theorem C1_counterexample :
    (get_timeseries_data dbT1 1 "clima" ["temperatura_minima"] none none (some 0) =
       .ok [⟨1, [("temperatura_minima", 10)]⟩] false
     ∧ ¬ (([(⟨1, [("temperatura_minima", 10)]⟩ : TSItem)] : List TSItem).length ≤ 0))
  ∧ get_timeseries_data dbE 1 "clima" ["temperatura_minima"] none none none = .noData :=
  ⟨⟨rfl, by decide⟩, rfl⟩

/-- Claim C1 (amended): the limit policy of `get_timeseries_data`, with
the two corrections the code forces: an explicit limit bounds the count
only when it is positive (a limit of 0 is falsy and disables the
`$limit` stage), and the `default_limit_used = true` flag appears only on
results with at least one record (the zero-record result is a distinct
dict without the flag).  So: (a) with neither dates nor limit, any
record-carrying result has `default_limit_used = true` and at most 20
records; (b) with both dates and no explicit limit, no implicit limit is
applied — the count equals the number of matching documents; (c) with an
explicit positive limit and no dates, the count is bounded by the limit
and `default_limit_used = false`. -/
theorem C1_limit_policy (db : DB) (center_id : Int) (source : String)
    (metrics : List String) :
    (∀ (data : List TSItem) (flag : Bool),
      get_timeseries_data db center_id source metrics none none none = .ok data flag →
      flag = true ∧ data.length ≤ 20)
  ∧ (∀ (s e : Nat) (data : List TSItem) (flag : Bool),
      get_timeseries_data db center_id source metrics (some s) (some e) none = .ok data flag →
      flag = false ∧ ∃ av, buildMongoFilter db center_id source = some av ∧
        data.length = ((docsOf db source).filter
          (fun d => decide (d.centerVal = some av) && dateOk (some s) (some e) d)).length)
  ∧ (∀ (n : Int) (data : List TSItem) (flag : Bool), 0 < n →
      get_timeseries_data db center_id source metrics none none (some n) = .ok data flag →
      flag = false ∧ data.length ≤ n.toNat) := by
  refine ⟨?_, ?_, ?_⟩
  · intro data flag h
    simp only [get_timeseries_data] at h
    split at h
    · exact absurd h (by simp)
    · split at h
      · exact absurd h (by simp)
      · split at h
        · exact absurd h (by simp)
        · split at h
          · exact absurd h (by simp)
          · rename_i limited heq
            split at h
            · exact absurd h (by simp)
            · cases h
              refine ⟨rfl, ?_⟩
              simp only [Option.isNone_none, Bool.and_self, reduceIte] at heq
              rcases limitStage_ok_cases heq with ⟨hap, rfl⟩ | ⟨n, hn, hpos, rfl⟩
              · exact absurd hap (by simp)
              · have h20 : n = 20 := by injection hn with h20; omega
                subst h20
                simp only [List.length_insertionSort, List.length_map, List.length_take]
                omega
  · intro s e data flag h
    simp only [get_timeseries_data] at h
    split at h
    · exact absurd h (by simp)
    · split at h
      · exact absurd h (by simp)
      · rename_i av hav
        split at h
        · exact absurd h (by simp)
        · split at h
          · exact absurd h (by simp)
          · rename_i limited heq
            split at h
            · exact absurd h (by simp)
            · cases h
              refine ⟨rfl, av, hav, ?_⟩
              simp only [Option.isNone_none, Option.isNone_some, Bool.and_false,
                Bool.false_and, Bool.and_self, reduceIte] at heq
              rcases limitStage_ok_cases heq with ⟨hap, rfl⟩ | ⟨n, hn, hpos, rfl⟩
              · simp [List.length_insertionSort]
              · exact absurd hn (by simp)
  · intro n data flag hn h
    simp only [get_timeseries_data] at h
    split at h
    · exact absurd h (by simp)
    · split at h
      · exact absurd h (by simp)
      · split at h
        · exact absurd h (by simp)
        · split at h
          · exact absurd h (by simp)
          · rename_i limited heq
            split at h
            · exact absurd h (by simp)
            · cases h
              refine ⟨rfl, ?_⟩
              simp only [Option.isNone_none, Option.isNone_some, Bool.and_false,
                Bool.false_and, Bool.and_self, reduceIte] at heq
              rcases limitStage_ok_cases heq with ⟨hap, rfl⟩ | ⟨m, hm, hmpos, rfl⟩
              · rcases hap with hap | hap
                · exact absurd hap (by simp)
                · injection hap with hap
                  omega
              · injection hm with hm
                subst hm
                simp only [List.length_insertionSort, List.length_map, List.length_take]
                omega
  
/-- Claim C1 witness: the three branches of the amended limit policy at
concrete inputs — a bare call (default limit flagged, count within 20), a
dated call (all two matching records returned, no flag), and a call with
explicit positive limit 2 (count within 2, no flag). -/
theorem C1_limit_policy_witness :
    (true = true ∧
      ([(⟨1, [("temperatura_minima", 10)]⟩ : TSItem), ⟨2, [("temperatura_minima", 11)]⟩,
        ⟨3, [("temperatura_minima", 12)]⟩] : List TSItem).length ≤ 20)
  ∧ (false = false ∧ ∃ av, buildMongoFilter dbT 1 "clima" = some av ∧
      ([(⟨2, [("temperatura_minima", 11)]⟩ : TSItem), ⟨3, [("temperatura_minima", 12)]⟩] :
        List TSItem).length =
        ((docsOf dbT "clima").filter
          (fun d => decide (d.centerVal = some av) && dateOk (some 2) (some 3) d)).length)
  ∧ (false = false ∧
      ([(⟨2, [("temperatura_minima", 11)]⟩ : TSItem), ⟨3, [("temperatura_minima", 12)]⟩] :
        List TSItem).length ≤ (2 : Int).toNat) :=
  ⟨(C1_limit_policy dbT 1 "clima" ["temperatura_minima"]).1 _ true rfl,
   (C1_limit_policy dbT 1 "clima" ["temperatura_minima"]).2.1 2 3 _ false rfl,
   (C1_limit_policy dbT 1 "clima" ["temperatura_minima"]).2.2 2 _ false (by norm_num) rfl⟩

/-- Claim C2 counterexample: no single interpreter supports both
syntactic forms in both positions.  The question_analizer2 interpreter
leaves the `"\x7b\x7ba.b\x7d\x7d"` form untouched even though the referenced
context value exists and is resolvable, and the question_analizer
interpreter leaves a placeholder inside a list-valued parameter
untouched. -/
theorem C2_counterexample :
    resolveParamV2 cctx (.str "\x7b\x7ba.b\x7d\x7d") = .ok (.str "\x7b\x7ba.b\x7d\x7d")
  ∧ resolveParamV1 cctx (.list [.str "$\x7ba.b\x7d"]) = .ok (.list [.str "$\x7ba.b\x7d"])
  ∧ resolveParamV1 cctx (.str "\x7b\x7ba.b\x7d\x7d") = .ok (.int 7)
  ∧ resolveParamV2 cctx (.list [.str "$\x7ba.b\x7d"]) = .ok (.list [.int 7]) :=
  ⟨rfl, rfl, rfl, rfl⟩

/-- Claim C2 (amended): placeholder support is split between the two
interpreters.  The question_analizer interpreter recognises both
`"$\x7bkey.field\x7d"` and `"\x7b\x7bkey.field\x7d\x7d"` but only as scalar string
parameters (list-valued parameters pass through untouched); the
question_analizer2 interpreter recognises only the `"$\x7bkey.field\x7d"`
form but resolves it both as a scalar parameter and inside list-valued
parameters.  In every supported position, a parameter referencing an
earlier step's result key and field is replaced before dispatch by the
value stored under that key and field in the execution context. -/
theorem C2_placeholder_support :
    (parsePH1 "$\x7ba.b\x7d" = some "a.b" ∧ parsePH1 "\x7b\x7ba.b\x7d\x7d" = some "a.b"
      ∧ parsePH2 "$\x7ba.b\x7d" = some ("a", "b") ∧ parsePH2 "\x7b\x7ba.b\x7d\x7d" = none)
  ∧ (∀ (ctx : Ctx) (s content k f : String) (rest : List String) (r v : JVal),
      parsePH1 s = some content → content ≠ "" →
      sSplitOn content '.' = k :: f :: rest →
      ctxLookup ctx k = some r → fieldLookup r f = some v →
      resolveParamV1 ctx (.str s) = .ok v)
  ∧ (∀ (ctx : Ctx) (v : JVal), (∀ s, v ≠ .str s) → (∀ xs, v ≠ .list xs) →
      resolveParamV1 ctx v = .ok v)
  ∧ (∀ (ctx : Ctx) (xs : List JVal), resolveParamV1 ctx (.list xs) = .ok (.list xs))
  ∧ (∀ (ctx : Ctx) (s k f : String) (r v : JVal),
      parsePH2 s = some (k, f) →
      ctxLookup ctx k = some r → fieldLookup r f = some v →
      resolveParamV2 ctx (.str s) = .ok v)
  ∧ (∀ (ctx : Ctx) (xs ys : List JVal),
      List.Forall₂ (fun x y =>
        match x with
        | .str s => resolveScalarV2 ctx s = .ok y
        | _ => y = x) xs ys →
      resolveParamV2 ctx (.list xs) = .ok (.list ys)) := by
  refine ⟨⟨rfl, rfl, rfl, rfl⟩, ?_, ?_, ?_, ?_, ?_⟩
  · intro ctx s content k f rest r v hp hc hsplit hctx hf
    simp only [resolveParamV1, hp, hsplit, hctx, hf, if_neg hc]
  · intro ctx v hs hl
    cases v with
    | str s => exact absurd rfl (hs s)
    | list xs => exact absurd rfl (hl xs)
    | _ => rfl
  · intro ctx xs
    rfl
  · intro ctx s k f r v hp hctx hf
    simp only [resolveParamV2, resolveScalarV2, hp, hctx, hf]
  · intro ctx xs ys hall
    simp only [resolveParamV2]
    have : xs.mapM (fun item =>
        match item with
        | .str s => resolveScalarV2 ctx s
        | other => .ok other) = Except.ok ys := by
      induction hall with
      | nil => rfl
      | cons hxy hrest ih =>
        rename_i x y xs' ys'
        rw [List.mapM_cons]
        cases x with
        | str s =>
          simp only at hxy
          dsimp only
          rw [hxy, ih]
          rfl
        | _ =>
          simp only at hxy
          subst hxy
          dsimp only
          rw [ih]
          rfl
    rw [this]
    rfl

/-- Claim C2 witness: the general resolution branches of the amended
theorem, applied at the concrete context `cctx` and placeholder
`"$\x7ba.b\x7d"`. -/
theorem C2_placeholder_support_witness :
    resolveParamV1 cctx (.str "$\x7ba.b\x7d") = .ok (.int 7)
  ∧ resolveParamV2 cctx (.str "$\x7ba.b\x7d") = .ok (.int 7)
  ∧ resolveParamV2 cctx (.list [.str "$\x7ba.b\x7d", .int 3]) = .ok (.list [.int 7, .int 3]) :=
  ⟨(C2_placeholder_support).2.1 cctx "$\x7ba.b\x7d" "a.b" "a" "b" [] _ _ rfl (by decide) rfl rfl rfl,
   (C2_placeholder_support).2.2.2.2.1 cctx "$\x7ba.b\x7d" "a" "b" _ _ rfl rfl rfl,
   (C2_placeholder_support).2.2.2.2.2 cctx [.str "$\x7ba.b\x7d", .int 3] [.int 7, .int 3]
     (by refine List.Forall₂.cons ?_ (List.Forall₂.cons ?_ List.Forall₂.nil) <;> rfl)⟩

/-- Plan execution decomposes over plan concatenation. -/
theorem runPlan2_append (tools : Registry) (rangeFn : JVal → JVal → JVal)
    (l1 l2 : List Step) (ctx : Ctx) :
    runPlan2 tools rangeFn ctx (l1 ++ l2) =
      runPlan2 tools rangeFn (runPlan2 tools rangeFn ctx l1) l2 := by
  induction l1 generalizing ctx with
  | nil => rfl
  | cons st rest ih => simpa [runPlan2] using ih (execStep2 tools rangeFn ctx st)

/-- Replacement map of `ctxInsert` is the identity when the key is
absent. -/
theorem ctxReplace_eq_self (ps : Ctx) (k' : String) (v : JVal)
    (h : hasKey ps k' = false) :
    ps.map (fun p => if p.1 = k' then (k', v) else p) = ps := by
  induction ps with
  | nil => rfl
  | cons p ps ih =>
    simp only [hasKey] at h
    by_cases hp : p.1 = k'
    · simp [hp] at h
    · rw [if_neg hp] at h
      simp [if_neg hp, ih h]

/-- Characterisation of dict assignment: the assigned key now maps to the
value; every other key is untouched. -/
theorem ctxLookup_ctxInsert (ctx : Ctx) (k k' : String) (v : JVal) :
    ctxLookup (ctxInsert ctx k' v) k = if k = k' then some v else ctxLookup ctx k := by
  unfold ctxInsert
  by_cases hmem : hasKey ctx k'
  · rw [if_pos hmem]
    induction ctx with
    | nil => simp [hasKey] at hmem
    | cons p ps ih =>
      simp only [hasKey] at hmem
      by_cases hp : p.1 = k'
      · simp only [List.map_cons, if_pos hp, ctxLookup, alookup]
        by_cases hk : k = k'
        · simp [hk, eq_comm]
        · rw [if_neg (fun hh => hk hh.symm), if_neg hk, hp,
            if_neg (fun hh => hk hh.symm)]
          by_cases hps : hasKey ps k'
          · simpa [ctxLookup, hk] using ih hps
          · rw [ctxReplace_eq_self ps k' v (by simpa using hps)]
      · rw [if_neg hp] at hmem
        simp only [List.map_cons, if_neg hp, ctxLookup, alookup]
        by_cases hpk : p.1 = k
        · have hk : ¬ k = k' := fun hh => hp (hpk.trans hh)
          simp [hpk, hk]
        · simpa [ctxLookup, alookup, hpk] using ih hmem
  · rw [if_neg hmem]
    induction ctx with
    | nil => simp [ctxLookup, alookup, eq_comm]
    | cons p ps ih =>
      simp only [hasKey] at hmem
      by_cases hp : p.1 = k'
      · simp [hp] at hmem
      · rw [if_neg hp] at hmem
        simp only [List.cons_append, ctxLookup, alookup]
        by_cases hpk : p.1 = k
        · have hk : ¬ k = k' := fun hh => hp (hpk.trans hh)
          simp [hpk, hk]
        · simpa [ctxLookup, alookup, hpk] using ih hmem

/-- Inserting a key makes it present. -/
theorem ctxLookup_ctxInsert_self (ctx : Ctx) (k : String) (v : JVal) :
    ctxLookup (ctxInsert ctx k v) k = some v := by
  simp [ctxLookup_ctxInsert]

/-- Insertion never removes a key. -/
theorem ctxLookup_ctxInsert_isSome (ctx : Ctx) (k k' : String) (v : JVal)
    (h : (ctxLookup ctx k).isSome) :
    (ctxLookup (ctxInsert ctx k' v) k).isSome := by
  rw [ctxLookup_ctxInsert]
  by_cases hk : k = k'
  · simp [hk]
  · simpa [hk] using h

/-- Shape of a successful step attempt: the resolved result is stored
under the step's own key, possibly followed by the available-range
entry. -/
theorem stepAttempt2_ok_shape (tools : Registry) (rangeFn : JVal → JVal → JVal)
    (ctx : Ctx) (st : Step) (c : Ctx)
    (h : stepAttempt2 tools rangeFn ctx st = .ok c) :
    (∃ v, c = ctxInsert ctx st.store_result_as v) ∨
    (∃ v w, c = ctxInsert (ctxInsert ctx st.store_result_as v)
        (st.store_result_as ++ "_available_range") w) := by
  simp only [stepAttempt2] at h
  split at h
  · exact absurd h (by simp)
  · split at h
    · split at h
      · exact absurd h (by simp)
      · split at h
        · split at h
          · split at h
            · cases h
              exact Or.inr ⟨_, _, rfl⟩
            · cases h
              exact Or.inl ⟨_, rfl⟩
          · cases h
            exact Or.inl ⟨_, rfl⟩
        · cases h
          exact Or.inl ⟨_, rfl⟩
    · split at h
      · cases h
        exact Or.inl ⟨_, rfl⟩
      · exact absurd h (by simp)

/-- A valid executed step always leaves an entry under its own key. -/
theorem execStep2_lookup_isSome (tools : Registry) (rangeFn : JVal → JVal → JVal)
    (ctx : Ctx) (st : Step) (htool : st.tool ≠ "") (hkey : st.store_result_as ≠ "") :
    (ctxLookup (execStep2 tools rangeFn ctx st) st.store_result_as).isSome := by
  unfold execStep2
  rw [if_neg (by simp [htool, hkey])]
  cases h : stepAttempt2 tools rangeFn ctx st with
  | error e => simp [ctxLookup_ctxInsert_self]
  | ok c =>
    rcases stepAttempt2_ok_shape tools rangeFn ctx st c h with ⟨v, rfl⟩ | ⟨v, w, rfl⟩
    · simp [ctxLookup_ctxInsert_self]
    · exact ctxLookup_ctxInsert_isSome _ _ _ _ (by simp [ctxLookup_ctxInsert_self])

/-- Any executed step preserves the presence of existing keys. -/
theorem execStep2_preserves_isSome (tools : Registry) (rangeFn : JVal → JVal → JVal)
    (ctx : Ctx) (st : Step) (k : String) (h : (ctxLookup ctx k).isSome) :
    (ctxLookup (execStep2 tools rangeFn ctx st) k).isSome := by
  unfold execStep2
  split
  · exact h
  · cases hs : stepAttempt2 tools rangeFn ctx st with
    | error e => exact ctxLookup_ctxInsert_isSome _ _ _ _ h
    | ok c =>
      rcases stepAttempt2_ok_shape tools rangeFn ctx st c hs with ⟨v, rfl⟩ | ⟨v, w, rfl⟩
      · exact ctxLookup_ctxInsert_isSome _ _ _ _ h
      · exact ctxLookup_ctxInsert_isSome _ _ _ _ (ctxLookup_ctxInsert_isSome _ _ _ _ h)

/-- A whole plan preserves the presence of existing keys. -/
theorem runPlan2_preserves_isSome (tools : Registry) (rangeFn : JVal → JVal → JVal)
    (steps : List Step) (ctx : Ctx) (k : String) (h : (ctxLookup ctx k).isSome) :
    (ctxLookup (runPlan2 tools rangeFn ctx steps) k).isSome := by
  induction steps generalizing ctx with
  | nil => exact h
  | cons st rest ih =>
    exact ih _ (execStep2_preserves_isSome tools rangeFn ctx st k h)

/-- Claim C3 (confirmed): for every plan, every tool semantics and every
step with a tool name and a result key, the interpreter is total — after
the step runs (whatever the outcome of placeholder resolution, dispatch,
or the tool itself), execution continues with exactly the remaining
steps on the updated context; the final context holds an entry under the
step's own `store_result_as` key; and whenever the step's attempt fails
(unresolvable placeholder, unrecognised tool name, or an exception
raised during execution — the `Except.error` cases of the model), the
value stored under the step's own key is precisely the router's error
payload.  No step failure aborts the plan or escapes the interpreter:
`runPlan2` is a total function into contexts. -/
theorem C3_step_failures_isolated (tools : Registry) (rangeFn : JVal → JVal → JVal)
    (pre post : List Step) (st : Step) (ctx0 : Ctx)
    (htool : st.tool ≠ "") (hkey : st.store_result_as ≠ "") :
    runPlan2 tools rangeFn ctx0 (pre ++ st :: post) =
      runPlan2 tools rangeFn
        (execStep2 tools rangeFn (runPlan2 tools rangeFn ctx0 pre) st) post
  ∧ (ctxLookup (runPlan2 tools rangeFn ctx0 (pre ++ st :: post)) st.store_result_as).isSome
  ∧ (∀ e, stepAttempt2 tools rangeFn (runPlan2 tools rangeFn ctx0 pre) st = .error e →
      execStep2 tools rangeFn (runPlan2 tools rangeFn ctx0 pre) st =
        ctxInsert (runPlan2 tools rangeFn ctx0 pre) st.store_result_as
          (errPayload2 st.tool)) := by
  refine ⟨?_, ?_, ?_⟩
  · rw [runPlan2_append]
    rfl
  · rw [runPlan2_append]
    show (ctxLookup (runPlan2 tools rangeFn _ (st :: post)) _).isSome
    simp only [runPlan2]
    exact runPlan2_preserves_isSome tools rangeFn post _ _
      (execStep2_lookup_isSome tools rangeFn _ st htool hkey)
  · intro e he
    unfold execStep2
    rw [if_neg (by simp [htool, hkey]), he]

/-- Claim C3 witness: a two-step plan whose first step names an unknown
tool; its failure is recorded under its own key and the following step
still runs and records its own (also failing) outcome. -/
theorem C3_step_failures_isolated_witness :
    runPlan2 (fun _ => none) (fun _ _ => .null) []
        ([] ++ (⟨"nope", [], "k1"⟩ : Step) :: [(⟨"alsonope", [], "k2"⟩ : Step)]) =
      runPlan2 (fun _ => none) (fun _ _ => .null)
        (execStep2 (fun _ => none) (fun _ _ => .null)
          (runPlan2 (fun _ => none) (fun _ _ => .null) [] []) ⟨"nope", [], "k1"⟩)
        [⟨"alsonope", [], "k2"⟩]
  ∧ (ctxLookup (runPlan2 (fun _ => none) (fun _ _ => .null) []
        ([] ++ (⟨"nope", [], "k1"⟩ : Step) :: [(⟨"alsonope", [], "k2"⟩ : Step)])) "k1").isSome
  ∧ execStep2 (fun _ => none) (fun _ _ => .null) [] ⟨"nope", [], "k1"⟩ =
      ctxInsert [] "k1" (errPayload2 "nope") := by
  refine ⟨(C3_step_failures_isolated (fun _ => none) (fun _ _ => .null) [] [⟨"alsonope", [], "k2"⟩]
      ⟨"nope", [], "k1"⟩ [] (by decide) (by decide)).1,
    (C3_step_failures_isolated (fun _ => none) (fun _ _ => .null) [] [⟨"alsonope", [], "k2"⟩]
      ⟨"nope", [], "k1"⟩ [] (by decide) (by decide)).2.1,
    (C3_step_failures_isolated (fun _ => none) (fun _ _ => .null) [] [⟨"alsonope", [], "k2"⟩]
      ⟨"nope", [], "k1"⟩ [] (by decide) (by decide)).2.2 "AttributeError: herramienta no encontrada" rfl⟩

/-- Claim C4 (code_bug): on the failing input — a `get_timeseries_data`
step over a database with no matching documents — the question_analizer
router's fallback fires (`result.get("count") == 0`) and calls
`executor.get_data_range_summary(...)`, a method the `ToolExecutor`
class does not define.  The resulting `AttributeError` is caught by the
step's `except` handler, which **overwrites** the zero-count result under
`"t"` with the catch-all error payload; no `"t_range_info"` entry is ever
stored.  The claim (and §4.5 of the spec, correctly implemented by the
question_analizer2 router under `"_available_range"`) requires the range
lookup to be stored and the zero-count result to remain. -/
theorem C4_fallback_calls_missing_method :
    tsAdapter dbE c4step.parameters = .ok (tsOutToJ .noData)
  ∧ registryV1 dbE "get_data_range_summary" = none
  ∧ runPlan1 (registryV1 dbE) [] [c4step] =
      [("t", errPayload1 "get_timeseries_data")]
  ∧ ctxLookup (runPlan1 (registryV1 dbE) [] [c4step]) "t_range_info" = none :=
  ⟨rfl, rfl, rfl, rfl⟩

/-- Rows produced by the correlation join inherit their date from some
input item (the `$lookup`/`$unwind`/`$mergeObjects` stages never change
`fecha`). -/
theorem correlationJoin_fecha (sdocs : List MDoc) (scfg : SourceConfig)
    (sAlias : String) (sm : List String) (items : List TSItem) :
    ∀ j ∈ correlationJoin sdocs scfg sAlias sm items,
      ∃ it ∈ items, j.fecha = it.fecha := by
  intro j hj
  simp only [correlationJoin] at hj
  rcases List.mem_flatMap.mp hj with ⟨it, hit, hmem⟩
  refine ⟨it, hit, ?_⟩
  split at hmem
  · simp only [List.mem_singleton] at hmem
    rw [hmem]
  · rcases List.mem_map.mp hmem with ⟨sv, _, rfl⟩
    rfl

/-- Claim C5 counterexample: the question_analizer correlation tool,
called with no explicit date range over two sources whose available
ranges (days 1..3 vs days 100..102) do not overlap at all, computes no
intersection and returns a successful result — every recent primary row,
with no correlated fields — instead of an explicit non-overlap error. -/
theorem C5_counterexample :
    get_data_range_for_source dbNO 1 "clima" = .range 1 3
  ∧ get_data_range_for_source dbNO 1 "alimentacion" = .range 100 102
  ∧ Nat.min 3 102 < Nat.max 1 100
  ∧ correlate_timeseries_data1 dbNO 1 "clima" ["temperatura_minima"] "alimentacion" ["sfr"]
      none none 100 =
      .ok [⟨1, [("temperatura_minima", 10)]⟩, ⟨2, [("temperatura_minima", 11)]⟩,
           ⟨3, [("temperatura_minima", 12)]⟩] :=
  ⟨rfl, rfl, by decide, rfl⟩

/-- Claim C5 (amended): the automatic range-intersection behaviour holds
for the question_analizer2 correlation tool (the question_analizer
variant applies no such logic and silently joins the most recent primary
rows).  For every call with no explicit date range whose two sources
both have data: if the available ranges overlap, the effective query
range is their intersection — `date_range_used` reports
`max(first₁, first₂) a min(last₁, last₂)` and every returned row's date
lies inside that intersection; if they do not overlap, the call returns
the explicit non-overlap error rather than an empty successful
result. -/
theorem C5_range_intersection (db : DB) (center_id : Int)
    (psrc : String) (pm : List String) (ssrc : String) (sm : List String)
    (limit : Option Int) :
    (∀ f1 l1 f2 l2,
      get_data_range_for_source db center_id psrc = .range f1 l1 →
      get_data_range_for_source db center_id ssrc = .range f2 l2 →
      Nat.max f1 f2 ≤ Nat.min l1 l2 →
      ∀ data flag drs,
        correlate_timeseries_data2 db center_id psrc pm ssrc sm none none limit =
          .ok data flag drs →
        drs = fmtDay (Nat.max f1 f2) ++ " a " ++ fmtDay (Nat.min l1 l2)
        ∧ ∀ it ∈ data, Nat.max f1 f2 ≤ it.fecha ∧ it.fecha ≤ Nat.min l1 l2)
  ∧ (∀ f1 l1 f2 l2,
      get_data_range_for_source db center_id psrc = .range f1 l1 →
      get_data_range_for_source db center_id ssrc = .range f2 l2 →
      Nat.min l1 l2 < Nat.max f1 f2 →
      correlate_timeseries_data2 db center_id psrc pm ssrc sm none none limit =
        .err "Se encontraron datos para ambas fuentes, pero no en el mismo período de tiempo. No se puede realizar la correlación.") := by
  constructor
  · intro f1 l1 f2 l2 h1 h2 hov data flag drs h
    simp only [correlate_timeseries_data2, h1, h2, Option.isNone_none, Bool.and_self,
      reduceIte, if_pos hov] at h
    split at h
    · rename_i pcfg scfg hpc hsc
      split at h
      · exact absurd h (by simp)
      · rename_i mc hmc
        split at h
        · rename_i pAlias sAlias hpa hsa
          split at h
          · exact absurd h (by simp)
          · rename_i limited heq
            cases h
            refine ⟨rfl, ?_⟩
            intro it hit
            rw [List.mem_insertionSort] at hit
            rcases List.mem_map.mp hit with ⟨j, hj, rfl⟩
            rcases correlationJoin_fecha _ _ _ _ _ j hj with ⟨it0, hit0, hfe⟩
            rcases List.mem_map.mp hit0 with ⟨d, hd, rfl⟩
            have hdm : d ∈ List.insertionSort descFecha
                ((docsOf db psrc).filter (fun d => decide (d.centerVal = some pAlias) &&
                  dateOk (some (Nat.max f1 f2)) (some (Nat.min l1 l2)) d)) := by
              rcases limitStage_ok_cases heq with ⟨_, rfl⟩ | ⟨n, _, _, rfl⟩
              · exact hd
              · exact List.take_subset _ _ hd
            rw [List.mem_insertionSort] at hdm
            have hmf := (List.mem_filter.mp hdm).2
            rw [Bool.and_eq_true] at hmf
            have hdo := hmf.2
            unfold dateOk at hdo
            rw [Bool.and_eq_true] at hdo
            simp only [correlationFinalProject, hfe]
            constructor
            · simpa using hdo.1
            · simpa using hdo.2
        · exact absurd h (by simp)
    · exact absurd h (by simp)
  · intro f1 l1 f2 l2 h1 h2 hov
    simp only [correlate_timeseries_data2, h1, h2, Option.isNone_none, Bool.and_self,
      reduceIte, if_neg (by omega : ¬ Nat.max f1 f2 ≤ Nat.min l1 l2)]

/-- Claim C5 witness: over the overlapping fixture (clima days 1..3,
alimentacion days 2..4) the no-dates correlation resolves the range
2..3 and every returned row lies inside it; over the disjoint fixture it
returns the explicit non-overlap error. -/
theorem C5_range_intersection_witness :
    correlate_timeseries_data2 dbOV 1 "clima" ["temperatura_minima"] "alimentacion" ["sfr"]
        none none none =
      .ok [⟨2, [("temperatura_minima", 11), ("sfr", 1)]⟩,
           ⟨3, [("temperatura_minima", 12), ("sfr", 2)]⟩] false "2 a 3"
  ∧ ("2 a 3" : String) = fmtDay (Nat.max 1 2) ++ " a " ++ fmtDay (Nat.min 3 4)
  ∧ (∀ it ∈ [(⟨2, [("temperatura_minima", 11), ("sfr", 1)]⟩ : TSItem),
        ⟨3, [("temperatura_minima", 12), ("sfr", 2)]⟩],
      Nat.max 1 2 ≤ it.fecha ∧ it.fecha ≤ Nat.min 3 4)
  ∧ correlate_timeseries_data2 dbNO 1 "clima" ["temperatura_minima"] "alimentacion" ["sfr"]
        none none none =
      .err "Se encontraron datos para ambas fuentes, pero no en el mismo período de tiempo. No se puede realizar la correlación." :=
  ⟨rfl,
   ((C5_range_intersection dbOV 1 "clima" ["temperatura_minima"] "alimentacion" ["sfr"]
      none).1 1 3 2 4 rfl rfl (by decide) _ _ _ rfl).1,
   ((C5_range_intersection dbOV 1 "clima" ["temperatura_minima"] "alimentacion" ["sfr"]
      none).1 1 3 2 4 rfl rfl (by decide) _ _ _ rfl).2,
   (C5_range_intersection dbNO 1 "clima" ["temperatura_minima"] "alimentacion" ["sfr"]
      none).2 1 3 100 102 rfl rfl (by decide)⟩

/-- Membership in the dedup accumulator recursion. -/
theorem mem_dedupFirstAux {α : Type} [DecidableEq α] (l : List α) :
    ∀ (seen : List α) (x : α), x ∈ dedupFirstAux seen l ↔ x ∈ l ∧ x ∉ seen := by
  induction l with
  | nil => intro seen x; simp [dedupFirstAux]
  | cons a as ih =>
    intro seen x
    unfold dedupFirstAux
    by_cases ha : a ∈ seen
    · rw [if_pos ha, ih]
      constructor
      · rintro ⟨hx, hs⟩
        exact ⟨List.mem_cons_of_mem a hx, hs⟩
      · rintro ⟨hx, hs⟩
        rcases List.mem_cons.mp hx with rfl | hx
        · exact absurd ha hs
        · exact ⟨hx, hs⟩
    · rw [if_neg ha]
      simp only [List.mem_cons, ih (a :: seen)]
      constructor
      · rintro (rfl | ⟨hx, hs⟩)
        · exact ⟨Or.inl rfl, ha⟩
        · exact ⟨Or.inr hx, fun hh => hs (Or.inr hh)⟩
      · rintro ⟨rfl | hx, hs⟩
        · exact Or.inl rfl
        · by_cases hxa : x = a
          · exact Or.inl hxa
          · exact Or.inr ⟨hx, by simp [hxa, hs]⟩

/-- A deduplicated list has the same members. -/
theorem mem_dedupFirst {α : Type} [DecidableEq α] (l : List α) (x : α) :
    x ∈ dedupFirst l ↔ x ∈ l := by
  simp [dedupFirst, mem_dedupFirstAux]

/-- Filtering commutes with first-occurrence dedup. -/
theorem dedupFirstAux_filter {α : Type} [DecidableEq α] (p : α → Bool) (l : List α) :
    ∀ (seen seen' : List α), (∀ x, p x = true → (x ∈ seen ↔ x ∈ seen')) →
    dedupFirstAux seen' (l.filter p) = (dedupFirstAux seen l).filter p := by
  induction l with
  | nil => intro seen seen' _; rfl
  | cons a as ih =>
    intro seen seen' hss
    by_cases hpa : p a = true
    · rw [List.filter_cons_of_pos hpa]
      simp only [dedupFirstAux]
      by_cases ha : a ∈ seen
      · rw [if_pos ((hss a hpa).mp ha), if_pos ha]
        exact ih seen seen' hss
      · rw [if_neg (fun hh => ha ((hss a hpa).mpr hh)), if_neg ha,
          List.filter_cons_of_pos hpa]
        rw [ih (a :: seen) (a :: seen') (fun x hx => by
          simp only [List.mem_cons]
          rw [hss x hx])]
    · rw [List.filter_cons_of_neg (by simpa using hpa)]
      simp only [dedupFirstAux]
      by_cases ha : a ∈ seen
      · rw [if_pos ha]
        exact ih seen seen' hss
      · rw [if_neg ha, List.filter_cons_of_neg (by simpa using hpa)]
        exact ih (a :: seen) seen' (fun x hx => by
          simp only [List.mem_cons]
          have : ¬ x = a := fun hh => by rw [hh] at hx; exact absurd hx (by simp [hpa])
          rw [hss x hx]
          simp [this])

/-- Filtering commutes with first-occurrence dedup. -/
theorem dedupFirst_filter {α : Type} [DecidableEq α] (p : α → Bool) (l : List α) :
    dedupFirst (l.filter p) = (dedupFirst l).filter p :=
  dedupFirstAux_filter p l [] [] (by simp)

/-- Mapping an injective function commutes with first-occurrence dedup. -/
theorem dedupFirstAux_map {α β : Type} [DecidableEq α] [DecidableEq β]
    {f : α → β} (hf : Function.Injective f) (l : List α) :
    ∀ seen : List α, dedupFirstAux (seen.map f) (l.map f) = (dedupFirstAux seen l).map f := by
  induction l with
  | nil => intro seen; rfl
  | cons a as ih =>
    intro seen
    unfold dedupFirstAux
    simp only [List.map_cons]
    by_cases ha : a ∈ seen
    · rw [if_pos (List.mem_map_of_mem f ha), if_pos ha]
      exact ih seen
    · rw [if_neg (fun hh => ha (by
        rcases List.mem_map.mp hh with ⟨y, hy, hxy⟩
        exact (hf hxy.symm) ▸ hy)), if_neg ha]
      simpa using ih (a :: seen)

/-- Mapping an injective function commutes with first-occurrence dedup. -/
theorem dedupFirst_map {α β : Type} [DecidableEq α] [DecidableEq β]
    {f : α → β} (hf : Function.Injective f) (l : List α) :
    dedupFirst (l.map f) = (dedupFirst l).map f :=
  dedupFirstAux_map hf l []

/-- The latest-entry selector returns nothing only on an empty list. -/
theorem latestEntry_eq_none {l : List MDoc} :
    latestEntry l = none ↔ l = [] := by
  cases l with
  | nil => simp [latestEntry]
  | cons d ds =>
    constructor
    · intro h
      exfalso
      unfold latestEntry at h
      cases hds : latestEntry ds <;> rw [hds] at h
      · exact Option.noConfusion h
      · rename_i b
        have h' : (if d.fecha < b.fecha then some b else some d) = none := h
        split at h' <;> exact Option.noConfusion h'
    · intro h
      exact absurd h (List.cons_ne_nil d ds)

/-- Filtering a key-preserving `filterMap` by key equals filtering the
keys first. -/
theorem filterMap_filter_key {α γ : Type} (F : α → Option γ) (q : γ → Bool)
    (p : α → Bool) (hpq : ∀ k x, F k = some x → q x = p k) (l : List α) :
    (l.filterMap F).filter q = (l.filter p).filterMap F := by
  induction l with
  | nil => rfl
  | cons k l ih =>
    cases hF : F k with
    | none =>
      rw [List.filterMap_cons_none hF]
      by_cases hp : p k = true
      · rw [List.filter_cons_of_pos hp, List.filterMap_cons_none hF, ih]
      · rw [List.filter_cons_of_neg (by simpa using hp), ih]
    | some x =>
      rw [List.filterMap_cons_some hF]
      by_cases hp : p k = true
      · rw [List.filter_cons_of_pos ((hpq k x hF).trans hp),
          List.filter_cons_of_pos hp, List.filterMap_cons_some hF, ih]
      · rw [List.filter_cons_of_neg (by simp [hpq k x hF]; simpa using hp),
          List.filter_cons_of_neg (by simpa using hp), ih]

/-- A `filterMap` that always succeeds is a `map`. -/
theorem filterMap_eq_map_of_some {α β : Type} (F : α → Option β) (g : α → β)
    (l : List α) (h : ∀ x ∈ l, F x = some (g x)) :
    l.filterMap F = l.map g := by
  induction l with
  | nil => rfl
  | cons a as ih =>
    rw [List.filterMap_cons_some (h a (by simp)), List.map_cons,
      ih (fun x hx => h x (List.mem_cons_of_mem a hx))]

/-- Inversion of the per-unit projection stage: on success, every
selected document carried both fields and each output row is the
weighted-death projection of its document. -/
theorem mortProjectRows_ok (l : List (String × MDoc)) (rows : List (String × ℚ × ℚ))
    (h : mortProjectRows l = .ok rows) :
    rows = l.map (fun p => (p.1,
      ((alookup p.2.fields "Mortalidad").getD 0) / 100 *
        ((alookup p.2.fields "Número Ingreso").getD 0),
      (alookup p.2.fields "Número Ingreso").getD 0)) := by
  induction l generalizing rows with
  | nil => cases h; rfl
  | cons p ps ih =>
    unfold mortProjectRows at h
    split at h
    · rename_i m stock hm hs
      cases hrec : mortProjectRows ps with
      | error e => rw [hrec] at h; exact absurd h (by simp [Except.map])
      | ok rs =>
        rw [hrec] at h
        simp only [Except.map] at h
        cases h
        rw [List.map_cons, ih rs hrec, hm, hs]
        rfl
    · exact absurd h (by simp)

/-- Every matched mortality document has a present center value. -/
theorem mortMatched_isSome (docs : List MDoc) (cf : Option (List String))
    (ed : Option Nat) :
    ∀ d ∈ mortMatched docs cf ed, d.centerVal.isSome = true := by
  intro d hd
  have hp := (List.mem_filter.mp hd).2
  rw [Bool.and_eq_true, Bool.and_eq_true] at hp
  exact hp.1.1

/-- A generic fusion: mapping over a `filterMap` that succeeds pointwise
with prescribed images. -/
theorem filterMap_map_eq {α β γ : Type} (F : α → Option β) (g : β → γ) (t : α → γ)
    (l : List α) (h : ∀ x ∈ l, ∃ d, F x = some d ∧ g d = t x) :
    (l.filterMap F).map g = l.map t := by
  induction l with
  | nil => rfl
  | cons a as ih =>
    rcases h a (by simp) with ⟨d, hF, hg⟩
    rw [List.filterMap_cons_some hF, List.map_cons, List.map_cons, hg,
      ih (fun x hx => h x (List.mem_cons_of_mem a hx))]

/-- Restricting the matched documents to one `(centro, unidad)` group
key gives exactly that unit's documents. -/
theorem mortKey_filter_eq (M : List MDoc) (c u : String)
    (hM : ∀ d ∈ M, d.centerVal.isSome = true) :
    M.filter (fun d => decide (mortKey d = (c, u))) = unitDocs M c u := by
  unfold unitDocs
  refine List.filter_congr (fun d hd => ?_)
  rcases Option.isSome_iff_exists.mp (hM d hd) with ⟨x, hx⟩
  simp [mortKey, hx, Prod.ext_iff, Bool.decide_and]

/-- Filtering a map by a predicate that factors through the mapped
function. -/
theorem filter_map_key {α β : Type} (f : α → β) (q : β → Bool) (p : α → Bool)
    (hq : ∀ x, q (f x) = p x) (l : List α) :
    (l.map f).filter q = (l.filter p).map f := by
  induction l with
  | nil => rfl
  | cons a as ih =>
    rw [List.map_cons]
    by_cases hp : p a = true
    · rw [List.filter_cons_of_pos (by rw [hq a]; exact hp),
        List.filter_cons_of_pos hp, List.map_cons, ih]
    · rw [List.filter_cons_of_neg (by rw [hq a]; simpa using hp),
        List.filter_cons_of_neg (by simpa using hp), ih]

/-- The per-centro slice of the projected rows is exactly the per-unit
weighted-death projection of the claim: one row per unit of the site,
holding the latest-recorded mortality converted to absolute deaths and
the latest-recorded initial stock. -/
theorem mortRows_filter_eq (docs : List MDoc) (cf : Option (List String))
    (ed : Option Nat) (prows : List (String × ℚ × ℚ))
    (hpr : mortProjectRows (mortSelected docs cf ed) = .ok prows) (c : String) :
    prows.filter (fun p => p.1 = c) =
      (siteUnits (mortMatched docs cf ed) c).map
        (fun u => (c, unitMort (mortMatched docs cf ed) c u / 100 *
            unitStock (mortMatched docs cf ed) c u,
          unitStock (mortMatched docs cf ed) c u)) := by
  have hM := mortMatched_isSome docs cf ed
  rw [mortProjectRows_ok _ _ hpr]
  rw [filter_map_key (fun p : String × MDoc =>
      (p.1, ((alookup p.2.fields "Mortalidad").getD 0) / 100 *
        ((alookup p.2.fields "Número Ingreso").getD 0),
      (alookup p.2.fields "Número Ingreso").getD 0))
    (fun p : String × ℚ × ℚ => decide (p.1 = c))
    (fun q : String × MDoc => decide (q.1 = c)) (fun x => rfl)]
  simp only [mortSelected]
  rw [filterMap_filter_key _ (fun q : String × MDoc => decide (q.1 = c))
    (fun k : String × String => decide (k.1 = c))
    (by
      intro k x hFx
      cases hle : latestEntry ((mortMatched docs cf ed).filter
          (fun d => decide (mortKey d = k))) <;> rw [hle] at hFx
      · exact absurd hFx (by simp)
      · rw [Option.map_some'] at hFx
        injection hFx with hFx
        rw [← hFx])]
  rw [← dedupFirst_filter]
  rw [filter_map_key mortKey (fun k : String × String => decide (k.1 = c))
    (fun d : MDoc => decide ((mortKey d).1 = c)) (fun x => rfl)]
  have hfc : (mortMatched docs cf ed).filter (fun d => decide ((mortKey d).1 = c)) =
      (mortMatched docs cf ed).filter (fun d => decide (d.centerVal = some c)) := by
    refine List.filter_congr (fun d hd => ?_)
    rcases Option.isSome_iff_exists.mp (hM d hd) with ⟨x, hx⟩
    simp [mortKey, hx]
  rw [hfc]
  have hmk : ((mortMatched docs cf ed).filter
      (fun d => decide (d.centerVal = some c))).map mortKey =
      (((mortMatched docs cf ed).filter
        (fun d => decide (d.centerVal = some c))).map MDoc.unidad).map
          (fun u => (c, u)) := by
    rw [List.map_map]
    refine List.map_congr_left (fun d hd => ?_)
    have hdc := (List.mem_filter.mp hd).2
    rw [decide_eq_true_eq] at hdc
    simp [mortKey, hdc, Function.comp]
  rw [hmk, dedupFirst_map (fun a b hab => by simpa using hab)]
  rw [List.filterMap_map]
  refine filterMap_map_eq _ _ _ _ (fun u hu => ?_)
  have hu' := (mem_dedupFirst _ _).mp hu
  rcases List.mem_map.mp hu' with ⟨d0, hd0, rfl⟩
  have hne : unitDocs (mortMatched docs cf ed) c d0.unidad ≠ [] := by
    intro hnil
    have hd0' : d0 ∈ unitDocs (mortMatched docs cf ed) c d0.unidad := by
      rw [unitDocs, List.mem_filter]
      refine ⟨(List.mem_filter.mp hd0).1, ?_⟩
      have h2 := (List.mem_filter.mp hd0).2
      rw [decide_eq_true_eq] at h2
      simp [h2]
    rw [hnil] at hd0'
    exact absurd hd0' (by simp)
  have hsome : ∃ ld, latestEntry (unitDocs (mortMatched docs cf ed) c d0.unidad) = some ld := by
    cases hle : latestEntry (unitDocs (mortMatched docs cf ed) c d0.unidad) with
    | none => exact absurd (latestEntry_eq_none.mp hle) hne
    | some ld => exact ⟨ld, rfl⟩
  rcases hsome with ⟨ld, hld⟩
  refine ⟨(c, ld), ?_, ?_⟩
  · simp only [Function.comp]
    rw [mortKey_filter_eq _ _ _ hM, hld]
    rfl
  · have hm : unitMort (mortMatched docs cf ed) c d0.unidad =
        (alookup ld.fields "Mortalidad").getD 0 := by
      unfold unitMort unitLatest
      rw [hld]
      rfl
    have hs : unitStock (mortMatched docs cf ed) c d0.unidad =
        (alookup ld.fields "Número Ingreso").getD 0 := by
      unfold unitStock unitLatest
      rw [hld]
      rfl
    rw [hm, hs]

/-- Rounding zero gives zero. -/
theorem round2_zero : round2 0 = 0 := by
  norm_num [round2, roundHalfEven]

/-- A successful mortality call runs the pipeline on the resolved center
filter. -/
theorem get_mortality_rate_ok (db : DB) (center_ids : Option (List Int))
    (sd ed : Option Nat) (rows : List MortRow)
    (h : get_mortality_rate db center_ids sd ed = .ok rows) :
    mortalityPipeline db.aliDocs (mortCenterFilter db center_ids) ed = .ok rows := by
  cases center_ids with
  | none => exact h
  | some l =>
    simp only [get_mortality_rate, mortCenterFilter] at h ⊢
    by_cases hl : l.isEmpty
    · rw [if_pos hl] at h
      rw [if_pos hl]
      exact h
    · rw [if_neg hl] at h
      rw [if_neg hl]
      by_cases hav : (l.filterMap (fun cid =>
          (getMasterCenterById db.centers cid).bind
            (fun c => getAliasValue c "alimentacion"))).isEmpty
      · rw [if_pos hav] at h
        exact absurd h (by simp)
      · rw [if_neg hav] at h
        exact h

/-- Claim C6 (confirmed): `get_mortality_rate` computes a weighted
mortality ratio per site, never an average of percentages.  For every
successful call, each returned row's fields are, over the matched
documents and independently of the other sites: `total_peces_ingresados`
is the sum over the site's units of the latest-recorded initial stock;
`total_peces_muertos` is the bankers-rounded sum over units of
`latest mortality pct / 100 * latest initial stock`; and
`porcentaje_mortalidad_total` is total deaths / total initial stock *
100, bankers-rounded to two decimals, and 0 when the total initial stock
is not positive. -/
theorem C6_weighted_mortality (db : DB) (center_ids : Option (List Int))
    (start_date end_date : Option Nat) (rows : List MortRow)
    (h : get_mortality_rate db center_ids start_date end_date = .ok rows) :
    ∀ r ∈ rows,
      r.porcentaje_mortalidad_total =
        (if 0 < siteStock (mortMatched db.aliDocs (mortCenterFilter db center_ids) end_date) r.centro
         then round2 (siteDeaths (mortMatched db.aliDocs (mortCenterFilter db center_ids) end_date) r.centro /
             siteStock (mortMatched db.aliDocs (mortCenterFilter db center_ids) end_date) r.centro * 100)
         else 0)
      ∧ r.total_peces_ingresados =
          siteStock (mortMatched db.aliDocs (mortCenterFilter db center_ids) end_date) r.centro
      ∧ r.total_peces_muertos =
          (roundHalfEven (siteDeaths (mortMatched db.aliDocs (mortCenterFilter db center_ids) end_date) r.centro) : ℚ) := by
  have hp := get_mortality_rate_ok db center_ids start_date end_date rows h
  intro r hr
  simp only [mortalityPipeline] at hp
  split at hp
  · exact absurd hp (by simp)
  · rename_i prows hpr
    cases hp
    rw [List.mem_insertionSort] at hr
    rcases List.mem_map.mp hr with ⟨r0, hr0, rfl⟩
    rcases List.mem_map.mp hr0 with ⟨c, _, rfl⟩
    have hfilter := mortRows_filter_eq db.aliDocs (mortCenterFilter db center_ids)
      end_date prows hpr c
    have hD : ((prows.filter (fun p => p.1 = c)).map (fun p => p.2.1)).sum =
        siteDeaths (mortMatched db.aliDocs (mortCenterFilter db center_ids) end_date) c := by
      rw [hfilter, List.map_map]
      rfl
    have hS : ((prows.filter (fun p => p.1 = c)).map (fun p => p.2.2)).sum =
        siteStock (mortMatched db.aliDocs (mortCenterFilter db center_ids) end_date) c := by
      rw [hfilter, List.map_map]
      rfl
    refine ⟨?_, ?_, ?_⟩
    · show round2 (if 0 < ((prows.filter (fun p => p.1 = c)).map (fun p => p.2.2)).sum
          then ((prows.filter (fun p => p.1 = c)).map (fun p => p.2.1)).sum /
            ((prows.filter (fun p => p.1 = c)).map (fun p => p.2.2)).sum * 100
          else 0) = _
      rw [hD, hS]
      by_cases hpos : 0 < siteStock (mortMatched db.aliDocs (mortCenterFilter db center_ids) end_date) c
      · rw [if_pos hpos, if_pos hpos]
      · rw [if_neg hpos, if_neg hpos, round2_zero]
    · show ((prows.filter (fun p => p.1 = c)).map (fun p => p.2.2)).sum = _
      rw [hS]
    · show (roundHalfEven (((prows.filter (fun p => p.1 = c)).map (fun p => p.2.1)).sum) : ℚ) = _
      rw [hD]

/-- Claim C6 witness: the spec's scenario — site 1 with 1000 initial
stock at 8% last-recorded mortality, site 2 with 500 at 4% — yields the
independent weighted ratios 8.00 and 4.00. -/
theorem C6_weighted_mortality_witness :
    get_mortality_rate dbM (some [1, 2]) none none =
      .ok [⟨"Pirquen", 1000, 80, 8⟩, ⟨"Polocuhe", 500, 20, 4⟩]
  ∧ (MortRow.mk "Pirquen" 1000 80 8).porcentaje_mortalidad_total =
      (if 0 < siteStock (mortMatched dbM.aliDocs (mortCenterFilter dbM (some [1, 2])) none) "Pirquen"
       then round2 (siteDeaths (mortMatched dbM.aliDocs (mortCenterFilter dbM (some [1, 2])) none) "Pirquen" /
           siteStock (mortMatched dbM.aliDocs (mortCenterFilter dbM (some [1, 2])) none) "Pirquen" * 100)
       else 0)
  ∧ (MortRow.mk "Polocuhe" 500 20 4).porcentaje_mortalidad_total =
      (if 0 < siteStock (mortMatched dbM.aliDocs (mortCenterFilter dbM (some [1, 2])) none) "Polocuhe"
       then round2 (siteDeaths (mortMatched dbM.aliDocs (mortCenterFilter dbM (some [1, 2])) none) "Polocuhe" /
           siteStock (mortMatched dbM.aliDocs (mortCenterFilter dbM (some [1, 2])) none) "Polocuhe" * 100)
       else 0) := by
  have heval : get_mortality_rate dbM (some [1, 2]) none none =
      .ok [⟨"Pirquen", 1000, 80, 8⟩, ⟨"Polocuhe", 500, 20, 4⟩] := by
    simp +decide only [get_mortality_rate, mortalityPipeline, mortSelected, mortMatched,
      getMasterCenterById, getAliasValue, aliasKeyFor, alookup, dbM, centerA, centerB, adoc,
      dedupFirst, dedupFirstAux, mortKey, latestEntry, mortProjectRows, round2, roundHalfEven,
      strLeB, charsLt, List.filterMap, List.filter_cons, List.filter_nil, List.sum_cons,
      List.sum_nil, List.map_cons, List.map_nil, List.insertionSort, List.orderedInsert,
      Except.map, hasKey, List.isEmpty, Function.comp, decide_eq_true_eq]
    norm_num [List.filter_cons, List.filter_nil, List.sum_cons, List.sum_nil,
      List.map_cons, List.map_nil, List.insertionSort, List.orderedInsert, strLeB, charsLt]
    simp +decide
    norm_num
  refine ⟨heval, ?_, ?_⟩
  · exact (C6_weighted_mortality dbM (some [1, 2]) none none _ heval _ (by simp)).1
  · exact (C6_weighted_mortality dbM (some [1, 2]) none none _ heval _ (by simp)).1

/-- Deduplication with an accumulator never produces duplicates. -/
theorem nodup_dedupFirstAux {α : Type} [DecidableEq α] (l : List α) :
    ∀ (seen : List α), (dedupFirstAux seen l).Nodup := by
  induction l with
  | nil => intro seen; simp [dedupFirstAux]
  | cons a as ih =>
    intro seen
    simp only [dedupFirstAux]
    split
    · exact ih seen
    · refine List.Nodup.cons ?_ (ih (a :: seen))
      intro hmem
      have hm := (mem_dedupFirstAux as (a :: seen) a).mp hmem
      exact hm.2 (List.mem_cons_self _ _)

/-- First-wins deduplication never produces duplicates. -/
theorem nodup_dedupFirst {α : Type} [DecidableEq α] (l : List α) :
    (dedupFirst l).Nodup := nodup_dedupFirstAux l []

/-- The last-wins dict lookup misses exactly when no pair carries the
key. -/
theorem dictGet_eq_none (l : List (Nat × ℚ)) (t : Nat) :
    dictGet l t = none ↔ ∀ p ∈ l, p.1 ≠ t := by
  induction l with
  | nil => simp [dictGet]
  | cons a as ih =>
    simp only [dictGet, List.mem_cons]
    constructor
    · intro h
      split at h
      · exact absurd h (by simp)
      · rename_i hnone
        intro p hp
        rcases hp with rfl | hp
        · intro hteq
          rw [if_pos hteq] at h
          exact absurd h (by simp)
        · exact (ih.mp hnone) p hp
    · intro h
      have hnone : dictGet as t = none := ih.mpr (fun p hp => h p (Or.inr hp))
      rw [hnone]
      rw [if_neg (h a (Or.inl rfl))]

/-- A hit of the last-wins dict lookup comes from one of the pairs. -/
theorem dictGet_eq_some (l : List (Nat × ℚ)) (t : Nat) (v : ℚ)
    (h : dictGet l t = some v) : (t, v) ∈ l := by
  induction l with
  | nil => simp [dictGet] at h
  | cons a as ih =>
    simp only [dictGet] at h
    split at h
    · rename_i w hw
      injection h with h
      subst h
      exact List.mem_cons_of_mem _ (ih hw)
    · split at h
      · rename_i ht
        injection h with h
        subst h
        rcases a with ⟨a1, a2⟩
        simp only at ht
        subst ht
        exact List.mem_cons_self _ _
      · exact absurd h (by simp)

/-- String concatenation acts as list concatenation on the data. -/
theorem sdata_append (a b : String) : (a ++ b).data = a.data ++ b.data := by
  cases a; cases b; rfl

/-- Strings with the same data are equal. -/
theorem sdata_inj (a b : String) (h : a.data = b.data) : a = b := by
  cases a; cases b; exact congrArg String.mk h

/-- The x-axis of a built chart. -/
theorem buildChart_xAxis (ctx : MCtx) (points : List Point) :
    (buildChart ctx points).xAxis = (chartTs points).map fmtTs := rfl

/-- The series list of a built chart. -/
theorem buildChart_series (ctx : MCtx) (points : List Point) :
    (buildChart ctx points).series = (chartPairs points).map (seriesOf ctx points) := rfl

/-- Claim C7 counterexample, refuting two parts of the claim on concrete
inputs.  First, values can be dropped: with two records sharing one
timestamp in a single series, the point carrying value 5 is flattened
into the chart input yet no chart cell holds 5 (the per-series dict
comprehension keeps only the last value per timestamp).  Second,
distinct series names are not guaranteed for distinct origin steps: the
origin keys `"t_pirq"` and `"pirq"` derive the same center display name,
so the two series of the merged chart collide on their legend name. -/
theorem C7_counterexample :
    ((Point.mk 1 "t_pirq" "m" 5) ∈ collectPoints ctxC7 (tsKeys planC7)
      ∧ ∃ ch, (merge_timeseries_data_for_chart ctxC7 planC7).chart = some ch
          ∧ ∀ s ∈ ch.series, ∀ v ∈ s.2, v ≠ some (5 : ℚ))
  ∧ (∃ ch2, (merge_timeseries_data_for_chart ctxC7b planC7b).chart = some ch2
      ∧ (∃ p ∈ collectPoints ctxC7b (tsKeys planC7b),
          p.origin_key = "t_pirq" ∧ p.metric_name = "m")
      ∧ (∃ p ∈ collectPoints ctxC7b (tsKeys planC7b),
          p.origin_key = "pirq" ∧ p.metric_name = "m")
      ∧ ¬ (ch2.series.map Prod.fst).Nodup) := by
  refine ⟨⟨by decide,
           buildChart ctxC7 (collectPoints ctxC7 (tsKeys planC7)), rfl, by decide⟩,
          buildChart ctxC7b (collectPoints ctxC7b (tsKeys planC7b)), rfl,
          by decide, by decide, by decide⟩

/-- Claim C7 (corrected): whenever the merge produces a chart, the
amended chart property holds — the x-axis is the strictly sorted set of
the flattened points' timestamps; there is one series per distinct
`(origin, metric)` pair, carrying that pair's legend name; each series
is aligned 1:1 with the axis with `null` at exactly the timestamps the
pair lacks, every present value coming from one of the pair's points at
that timestamp; and two same-metric pairs get distinct names whenever
their derived center display names differ. -/
theorem C7_chart_alignment (ctx : MCtx) (plan : List Step) (ch : Chart)
    (h : (merge_timeseries_data_for_chart ctx plan).chart = some ch) :
    ChartSpec ctx plan ch := by
  simp only [merge_timeseries_data_for_chart] at h
  split at h
  · exact absurd h (by simp)
  · split at h
    · exact absurd h (by simp)
    · have h' : some (buildChart ctx (collectPoints ctx (tsKeys plan))) = some ch := h
      injection h' with h'
      subst h'
      refine ⟨chartTs (collectPoints ctx (tsKeys plan)),
              chartPairs (collectPoints ctx (tsKeys plan)),
              ?_, ?_, ?_, ?_, ?_, ?_, ?_, ?_, ?_⟩
      · simp only [chartTs]
        apply List.Sorted.lt_of_le
        · exact List.sorted_insertionSort _ _
        · exact ((List.perm_insertionSort _ _).symm.nodup) (nodup_dedupFirst _)
      · intro t
        simp only [chartTs]
        rw [(List.perm_insertionSort (fun a b : Nat => a ≤ b) _).mem_iff,
          mem_dedupFirst, List.mem_map]
      · exact buildChart_xAxis ctx _
      · simp only [chartPairs]
        exact ((List.perm_insertionSort _ _).symm.nodup) (nodup_dedupFirst _)
      · intro pr
        simp only [chartPairs]
        rw [(List.perm_insertionSort (fun a b => pairLeB a b = true) _).mem_iff,
          mem_dedupFirst, List.mem_map]
        simp [Prod.ext_iff]
      · rw [buildChart_series, List.length_map]
      · intro s hs
        rw [buildChart_series] at hs
        rcases List.mem_map.mp hs with ⟨pr, hpr, rfl⟩
        simp [seriesOf, buildChart_xAxis, List.length_map]
      · intro i pr hpr
        refine ⟨seriesOf ctx (collectPoints ctx (tsKeys plan)) pr, ?_, rfl, ?_⟩
        · rw [buildChart_series, List.get?_map, hpr]
          rfl
        · intro j t htj
          refine ⟨dictGet (seriesPoints (collectPoints ctx (tsKeys plan)) pr) t, ?_, ?_, ?_⟩
          · show ((chartTs (collectPoints ctx (tsKeys plan))).map
                (fun u => dictGet (seriesPoints (collectPoints ctx (tsKeys plan)) pr) u)).get? j = _
            rw [List.get?_map, htj]
            rfl
          · rw [dictGet_eq_none]
            constructor
            · rintro hall ⟨p, hp, h1, h2, h3⟩
              refine absurd h3 (hall (p.fecha, p.value) ?_)
              simp only [seriesPoints]
              exact List.mem_map.mpr ⟨p, List.mem_filter.mpr ⟨hp, by simp [h1, h2]⟩, rfl⟩
            · intro hne q hq
              simp only [seriesPoints] at hq
              rcases List.mem_map.mp hq with ⟨p, hpf, rfl⟩
              rcases List.mem_filter.mp hpf with ⟨hp, hcond⟩
              simp only [Bool.and_eq_true, decide_eq_true_eq] at hcond
              intro h3
              exact hne ⟨p, hp, hcond.1, hcond.2, h3⟩
          · intro v hv
            have hmem := dictGet_eq_some _ _ _ hv
            simp only [seriesPoints] at hmem
            rcases List.mem_map.mp hmem with ⟨p, hpf, heq⟩
            rcases List.mem_filter.mp hpf with ⟨hp, hcond⟩
            simp only [Bool.and_eq_true, decide_eq_true_eq] at hcond
            injection heq with h1 h2
            exact ⟨p, hp, hcond.1, hcond.2, h1, h2⟩
      · intro pr1 _ pr2 _ hm hc hn
        apply hc
        simp only [seriesName] at hn
        rw [hm] at hn
        have hd := congrArg String.data hn
        simp only [sdata_append] at hd
        exact sdata_inj _ _ (List.append_cancel_left (List.append_cancel_right hd))

/-- Claim C7 witness: the spec's scenario — two sites on the metric
`"temperatura"` with timestamps `[1, 2]` and `[2, 3]` — merges into a
chart with x-axis `["1", "2", "3"]` and two distinctly named series,
each with one `null` at the timestamp it lacks, and the chart satisfies
the amended property. -/
theorem C7_chart_alignment_witness :
    (merge_timeseries_data_for_chart ctxC7w planC7w).chart =
      some (buildChart ctxC7w (collectPoints ctxC7w (tsKeys planC7w)))
  ∧ (buildChart ctxC7w (collectPoints ctxC7w (tsKeys planC7w))).xAxis = ["1", "2", "3"]
  ∧ (buildChart ctxC7w (collectPoints ctxC7w (tsKeys planC7w))).series =
      [("Temperatura (Pirquen)", [some 10, some 11, none]),
       ("Temperatura (Polocuhe)", [none, some 20, some 21])]
  ∧ ChartSpec ctxC7w planC7w (buildChart ctxC7w (collectPoints ctxC7w (tsKeys planC7w))) :=
  ⟨rfl, by decide, by decide, C7_chart_alignment ctxC7w planC7w _ rfl⟩

end IACorfo